import Mathlib

/-!
Shallow embedding of the incident lifecycle engine of the raisedash-kpi-bot
repository (src/database.py, src/handlers.py, src/reminders.py,
src/message_builder.py, src/time_utils.py), together with theorems settling
the behavioural claims about it.

Conventions of the embedding:
* Timestamps are natural numbers counting microseconds of UTC time, standing
  for the ISO-8601 strings produced by time_utils.utc_iso_now (microsecond
  resolution); a SQL NULL timestamp is `Option.none`.
* SQLite rowids (department ids, company ids, session ids) are at least 1, so
  Python truthiness tests such as `if not incident['department_id']` coincide
  with NULL tests and are modelled on `Option`.
* Each public mutation of database.Database runs under the writer lock inside
  one transaction; it is modelled as a pure function from the store to the
  pair of its `(ok, reason)` result and the new store.  All statements of a
  transaction observe the single commit instant `now`.
* The store is modelled for one incident under scrutiny (every mutating SQL
  statement of the modelled operations is keyed by one incident_id); rows of
  other incidents are untouched by these operations.
-/

namespace KpiBot

/-- Incident lifecycle status, exactly the six strings stored in the
`incidents.status` column by database.py. -/
inductive Status where
  | awaitingDepartment
  | awaitingClaim
  | inProgress
  | awaitingSummary
  | resolved
  | closed
deriving DecidableEq, Repr, Inhabited

/-- The string database.py stores for each status. -/
def Status.str : Status → String
  | .awaitingDepartment => "Awaiting_Department"
  | .awaitingClaim => "Awaiting_Claim"
  | .inProgress => "In_Progress"
  | .awaitingSummary => "Awaiting_Summary"
  | .resolved => "Resolved"
  | .closed => "Closed"

/-- JSON values appearing in event metadata written by _record_event. -/
inductive JsonVal where
  | jnull
  | jbool (b : Bool)
  | jnum (n : Int)
  | jstr (s : String)
deriving DecidableEq, Repr, Inhabited

def jsonOfOptInt : Option Int → JsonVal
  | none => .jnull
  | some n => .jnum n

def jsonOfOptStr : Option String → JsonVal
  | none => .jnull
  | some s => .jstr s

/-- A row of incident_claims (for the incident under scrutiny). -/
structure ClaimRow where
  user_id : Int
  department_id : Option Int
  claimed_at : Nat
  released_at : Option Nat
  is_active : Bool
deriving DecidableEq, Repr, Inhabited

/-- A row of incident_participants (the per-user rollup). -/
structure ParticipantRow where
  user_id : Int
  department_id : Option Int
  first_claimed_at : Nat
  last_claimed_at : Nat
  active_since : Option Nat
  is_active : Bool
  status : String
  join_count : Nat
  total_active_seconds : Nat
  last_released_at : Option Nat
  resolved_at : Option Nat
  outcome_detail : Option String
deriving DecidableEq, Repr, Inhabited

/-- A row of incident_department_sessions. -/
structure SessionRow where
  session_id : Nat
  department_id : Int
  assigned_at : Nat
  assigned_by_user_id : Option Int
  claimed_at : Option Nat
  released_at : Option Nat
  status : String
deriving DecidableEq, Repr, Inhabited

/-- A row of incident_events, as written by Database._record_event. -/
structure EventRow where
  event_type : String
  actor_user_id : Option Int
  at_ : Nat
  metadata : List (String × JsonVal)
deriving DecidableEq, Repr, Inhabited

/-- The rows of the incidents table for one incident, together with its
dependent claim / participant / session / event rows. -/
structure IncidentRows where
  status : Status
  company_id : Option Int
  department_id : Option Int
  created_by_handle : String
  description : String
  pending_resolution_by_user_id : Option Int
  resolved_by_user_id : Option Int
  resolution_summary : Option String
  t_created : Nat
  t_department_assigned : Option Nat
  t_first_claimed : Option Nat
  t_last_claimed : Option Nat
  t_resolution_requested : Option Nat
  t_resolved : Option Nat
  current_department_session_id : Option Nat
  claims : List ClaimRow
  participants : List ParticipantRow
  sessions : List SessionRow
  events : List EventRow
deriving DecidableEq, Repr, Inhabited

/-- A row of the departments table.  The `restricted_to_department_members`
flag is the boolean truthiness of that key of the department's JSON
metadata. -/
structure DepartmentRow where
  department_id : Int
  company_id : Int
  name : String
  restricted_to_department_members : Bool
deriving DecidableEq, Repr, Inhabited

/-- The slice of the store the lifecycle operations touch: the departments
and department_members tables, and the rows of the incident under
scrutiny (`none` when no incident with the requested id exists). -/
structure DB where
  departments : List DepartmentRow
  department_members : List (Int × Int)
  incident : Option IncidentRows
deriving DecidableEq, Repr, Inhabited

/-- COALESCE(department_id, -1), the NULL-safe department comparison used by
_finalize_participation. -/
def coalesceDept (d : Option Int) : Int := d.getD (-1)

/-- Database._has_active_claim. -/
def has_active_claim (inc : IncidentRows) (user : Int) : Bool :=
  inc.claims.any fun c => c.user_id == user && c.is_active

/-- Database._count_active_claims. -/
def count_active_claims (claims : List ClaimRow) : Nat :=
  (claims.filter (·.is_active)).length

/-- Database._close_active_claims: mark every active claim released at
`closed_at` (`released_at = COALESCE(released_at, closed_at)`). -/
def close_active_claims (claims : List ClaimRow) (closed_at : Nat) : List ClaimRow :=
  claims.map fun c =>
    if c.is_active then
      { c with is_active := false, released_at := some (c.released_at.getD closed_at) }
    else c

/-- Database._end_active_department_session. -/
def end_active_department_session (sessions : List SessionRow) (end_time : Nat)
    (status : String) : List SessionRow :=
  sessions.map fun s =>
    if s.status == "active" then
      { s with status := status, released_at := some (s.released_at.getD end_time) }
    else s

/-- Database._touch_department_session_claim:
`claimed_at = COALESCE(claimed_at, t)` on the active session. -/
def touch_department_session_claim (sessions : List SessionRow) (t : Nat) : List SessionRow :=
  sessions.map fun s =>
    if s.status == "active" then { s with claimed_at := some (s.claimed_at.getD t) }
    else s

/-- Session rowids are handed out sequentially by SQLite; sessions of the
incident are only ever appended, so the next rowid is the count so far
plus one. -/
def nextSessionId (sessions : List SessionRow) : Nat := sessions.length + 1

/-- The participant-key test of _start_participation's upsert
(`ON CONFLICT(incident_id, user_id, department_id)`); the call sites always
pass a non-NULL department. -/
def participantUpsertKey (user : Int) (dept : Option Int) (p : ParticipantRow) : Bool :=
  p.user_id == user && p.department_id == dept

/-- The participant-row test of _finalize_participation
(`user_id = ? AND COALESCE(department_id, -1) = COALESCE(?, -1)`). -/
def participantMatches (user : Int) (dept : Option Int) (p : ParticipantRow) : Bool :=
  p.user_id == user && coalesceDept p.department_id == coalesceDept dept

/-- Database._start_participation: create or reactivate the rollup of
(user, dept), incrementing join_count on reactivation. -/
def start_participation (ps : List ParticipantRow) (user : Int) (dept : Option Int)
    (claimed_at : Nat) : List ParticipantRow :=
  if ps.any (participantUpsertKey user dept) then
    ps.map fun p =>
      if participantUpsertKey user dept p then
        { p with
          last_claimed_at := claimed_at, active_since := some claimed_at,
          is_active := true, status := "active", join_count := p.join_count + 1,
          outcome_detail := none, resolved_at := none }
      else p
  else
    ps ++ [{ user_id := user, department_id := dept, first_claimed_at := claimed_at,
             last_claimed_at := claimed_at, active_since := some claimed_at,
             is_active := true, status := "active", join_count := 1,
             total_active_seconds := 0, last_released_at := none,
             resolved_at := none, outcome_detail := none }]

/-- The seconds accrued by _finalize_participation for the fetched row:
`int(max(0, (ended - started).total_seconds()))` over microsecond
timestamps, which is the clamped difference floor-divided by 10^6
(truncated subtraction on Nat is the clamp). -/
def accruedTotal (row : ParticipantRow) (stop_time : Nat) : Nat :=
  if row.is_active && row.active_since.isSome then
    row.total_active_seconds + (stop_time - row.active_since.getD 0) / 1000000
  else
    row.total_active_seconds

/-- Database._finalize_participation: close out the (user, dept) rollup at
`stop_time` with terminal `status`, accruing active time; no-op when the
row does not exist. -/
def finalize_participation (ps : List ParticipantRow) (user : Int) (dept : Option Int)
    (stop_time : Nat) (status : String) (outcome_detail : Option String)
    (mark_resolved : Bool) : List ParticipantRow :=
  match ps.find? (participantMatches user dept) with
  | none => ps
  | some row =>
    let total := accruedTotal row stop_time
    ps.map fun p =>
      if participantMatches user dept p then
        { p with
          is_active := false, active_since := none,
          last_released_at := some stop_time, total_active_seconds := total,
          status := status,
          resolved_at := if mark_resolved then some stop_time else p.resolved_at,
          outcome_detail := match outcome_detail with
            | some o => some o
            | none => p.outcome_detail }
      else p

/-- Database._finalize_active_participants: on resolve, finalize the rollup
of every active participant, the resolver as resolved_self and the rest
as resolved_other. -/
def finalize_active_participants (ps : List ParticipantRow) (resolved_by_user_id : Int)
    (resolved_at : Nat) : List ParticipantRow :=
  (ps.filter (·.is_active)).foldl
    (fun acc row =>
      finalize_participation acc row.user_id row.department_id resolved_at
        (if row.user_id == resolved_by_user_id then "resolved_self" else "resolved_other")
        none true)
    ps

/-- Database._finalize_active_participants_closed: on auto-close, finalize
every active participant rollup with status closed. -/
def finalize_active_participants_closed (ps : List ParticipantRow)
    (closed_at : Nat) : List ParticipantRow :=
  (ps.filter (·.is_active)).foldl
    (fun acc row =>
      finalize_participation acc row.user_id row.department_id closed_at "closed" none true)
    ps

/-- Database.get_department, restricted to the fields the lifecycle uses. -/
def findDepartment (db : DB) (department_id : Int) : Option DepartmentRow :=
  db.departments.find? fun d => d.department_id == department_id

/-- Database._get_department_name. -/
def get_department_name (db : DB) (department_id : Option Int) : Option String :=
  match department_id with
  | none => none
  | some i => (findDepartment db i).map (·.name)

/-- Database.is_user_in_department. -/
def is_user_in_department (db : DB) (department_id : Int) (user_id : Int) : Bool :=
  db.department_members.any fun m => m.1 == department_id && m.2 == user_id

/-- The IndexError sqlite3.Row raises when indexed with a column name the
originating SELECT did not return. -/
inductive SqliteRowError where
  | indexError
deriving DecidableEq, Repr, Inhabited

/-- Database.claim_incident: claim or co-claim the incident for its current
department.  The opening SELECT fetches only status and department_id
(database.py:1997-1999), yet after the guards pass, the claim event metadata
is built from incident[\x27t_first_claimed\x27] (database.py:2037) — a column
the row does not carry, so sqlite3.Row raises IndexError there.
get_connection rolls the transaction back (discarding the claim row,
participant, session and timestamp writes of database.py:2003-2033) and
re-raises, so every call that passes the guards raises with the store
unchanged and no path ever returns (True, "Claim successful"). -/
def claim_incident (db : DB) (user_id : Int) (now : Nat) :
    Except SqliteRowError (Bool × String) × DB :=
  match db.incident with
  | none => (.ok (false, "Incident not found."), db)
  | some inc =>
    match inc.department_id with
    | none => (.ok (false, "Incident does not have a department yet."), db)
    | some _dept =>
      if ¬ (inc.status = .awaitingClaim ∨ inc.status = .inProgress) then
        (.ok (false, "This incident cannot be claimed right now."), db)
      else if has_active_claim inc user_id then
        (.ok (false, "You\x27re already working on this incident."), db)
      else
        (.error .indexError, db)

/-- Database.release_claim: release the requesting user's active claim. -/
def release_claim (db : DB) (user_id : Int) (now : Nat) : (Bool × String) × DB :=
  match db.incident with
  | none => ((false, "Incident not found."), db)
  | some inc =>
    if ¬ (inc.status = .awaitingClaim ∨ inc.status = .inProgress) then
      ((false, "You cannot leave this incident right now."), db)
    else
      match inc.claims.find? (fun c => c.user_id == user_id && c.is_active) with
      | none => ((false, "You are not part of this incident."), db)
      | some claim_row =>
        let claims := inc.claims.map fun c =>
          if c.user_id == user_id && c.is_active then
            { c with is_active := false, released_at := some now }
          else c
        let participants := finalize_participation inc.participants user_id
          claim_row.department_id now "released" none false
        let remaining := count_active_claims claims
        let status :=
          if remaining = 0 ∧ inc.status ≠ .awaitingSummary then Status.awaitingClaim
          else inc.status
        let ev : EventRow :=
          { event_type := "release", actor_user_id := some user_id, at_ := now,
            metadata := [("remaining_active", .jnum (Int.ofNat remaining)),
                         ("department_id", jsonOfOptInt claim_row.department_id),
                         ("department_name",
                          jsonOfOptStr (get_department_name db claim_row.department_id))] }
        let inc2 := { inc with
          status := status, claims := claims, participants := participants,
          events := inc.events ++ [ev] }
        ((true, "Claim released successfully"), { db with incident := some inc2 })

/-- The company test of assign_incident_department
(`if incident.get('company_id') and dept['company_id'] != incident['company_id']`);
company rowids are at least 1, so truthiness is non-NULL-ness. -/
def companyMismatch (inc : IncidentRows) (dept : DepartmentRow) : Bool :=
  match inc.company_id with
  | none => false
  | some c => dept.company_id != c

/-- Database.assign_incident_department: attach or change the department
handling the incident. -/
def assign_incident_department (db : DB) (department_id : Int) (assigned_by_user_id : Int)
    (now : Nat) : (Bool × String) × DB :=
  match db.incident with
  | none => ((false, "Incident not found."), db)
  | some inc =>
    if inc.status = .resolved ∨ inc.status = .closed ∨ inc.status = .awaitingSummary then
      ((false, "Department cannot be changed while the incident is closing out."), db)
    else if inc.department_id = some department_id ∧ inc.status ≠ .awaitingDepartment then
      ((false, "Incident already assigned to this department."), db)
    else
      match findDepartment db department_id with
      | none => ((false, "Department not found."), db)
      | some dept =>
        if companyMismatch inc dept then
          ((false, "Department does not belong to this company."), db)
        else
          let previous_department_id := inc.department_id
          let active_claims := inc.claims.filter (·.is_active)
          let participants := active_claims.foldl
            (fun acc c =>
              finalize_participation acc c.user_id c.department_id now "transferred" none false)
            inc.participants
          let claims :=
            if active_claims.isEmpty then inc.claims else close_active_claims inc.claims now
          let sessions1 := end_active_department_session inc.sessions now "transferred"
          let sid := nextSessionId sessions1
          let sessions := sessions1 ++
            [{ session_id := sid, department_id := department_id, assigned_at := now,
               assigned_by_user_id := some assigned_by_user_id, claimed_at := none,
               released_at := none, status := "active" }]
          let ev : EventRow :=
            { event_type := "department_assigned", actor_user_id := some assigned_by_user_id,
              at_ := now,
              metadata := [("department_id", .jnum department_id),
                           ("department_name", .jstr dept.name),
                           ("previous_department_id", jsonOfOptInt previous_department_id),
                           ("previous_department_name",
                            jsonOfOptStr (get_department_name db previous_department_id)),
                           ("status_before", .jstr inc.status.str)] }
          let inc2 := { inc with
            department_id := some department_id,
            status := .awaitingClaim,
            t_department_assigned := some now,
            current_department_session_id := some sid,
            claims := claims, participants := participants, sessions := sessions,
            events := inc.events ++ [ev] }
          ((true, "Department updated"), { db with incident := some inc2 })

/-- Database.request_resolution: ask the claiming user for a closing summary.
The guarded UPDATE's row count is positive exactly when the status read in
the same transaction was In_Progress, which was just checked. -/
def request_resolution (db : DB) (user_id : Int) (now : Nat) : (Bool × String) × DB :=
  match db.incident with
  | none => ((false, "Incident not found."), db)
  | some inc =>
    if inc.status ≠ .inProgress then
      ((false, "You cannot resolve this incident right now."), db)
    else if ¬ has_active_claim inc user_id then
      ((false, "You need to be an active claimer to resolve."), db)
    else
      let ev : EventRow :=
        { event_type := "resolution_requested", actor_user_id := some user_id, at_ := now,
          metadata := [("department_id", jsonOfOptInt inc.department_id),
                       ("department_name",
                        jsonOfOptStr (get_department_name db inc.department_id))] }
      let inc2 := { inc with
        status := .awaitingSummary,
        pending_resolution_by_user_id := some user_id,
        t_resolution_requested := some now,
        events := inc.events ++ [ev] }
      ((true, "Resolution requested successfully"), { db with incident := some inc2 })

/-- Database.resolve_incident: mark the incident resolved with a summary.
The SELECT keyed on status = Awaiting_Summary and
pending_resolution_by_user_id = user finds no row when the incident is
missing or those fields differ, and the same message is returned in
either case. -/
def resolve_incident (db : DB) (user_id : Int) (resolution_summary : String)
    (now : Nat) : (Bool × String) × DB :=
  match db.incident with
  | none => ((false, "You cannot resolve this incident or it\x27s not awaiting summary."), db)
  | some inc =>
    if inc.status = .awaitingSummary ∧ inc.pending_resolution_by_user_id = some user_id then
      let claims := close_active_claims inc.claims now
      let participants := finalize_active_participants inc.participants user_id now
      let sessions := end_active_department_session inc.sessions now "resolved"
      let ev : EventRow :=
        { event_type := "resolve", actor_user_id := some user_id, at_ := now,
          metadata := [("department_id", jsonOfOptInt inc.department_id),
                       ("department_name",
                        jsonOfOptStr (get_department_name db inc.department_id))] }
      let inc2 := { inc with
        status := .resolved,
        resolution_summary := some resolution_summary,
        t_resolved := some now,
        pending_resolution_by_user_id := none,
        resolved_by_user_id := some user_id,
        claims := claims, participants := participants, sessions := sessions,
        events := inc.events ++ [ev] }
      ((true, "Incident resolved successfully"), { db with incident := some inc2 })
    else
      ((false, "You cannot resolve this incident or it\x27s not awaiting summary."), db)

/-- Database.auto_close_incident: close an incident stuck awaiting a summary.
The status was read as Awaiting_Summary inside the same write transaction,
so the guarded UPDATE's row count is positive. -/
def auto_close_incident (db : DB) (summary : String) (reason : String)
    (now : Nat) : (Bool × String) × DB :=
  match db.incident with
  | none => ((false, "Incident not found."), db)
  | some inc =>
    if inc.status ≠ .awaitingSummary then
      ((false, "Incident is not awaiting summary."), db)
    else
      let pending_user_id := inc.pending_resolution_by_user_id
      let claims := close_active_claims inc.claims now
      let participants := finalize_active_participants_closed inc.participants now
      let sessions := end_active_department_session inc.sessions now "closed"
      let ev : EventRow :=
        { event_type := "auto_closed", actor_user_id := pending_user_id, at_ := now,
          metadata := [("reason", .jstr reason),
                       ("pending_user_id", jsonOfOptInt pending_user_id),
                       ("department_id", jsonOfOptInt inc.department_id),
                       ("department_name",
                        jsonOfOptStr (get_department_name db inc.department_id))] }
      let inc2 := { inc with
        status := .closed,
        resolution_summary := some summary,
        t_resolved := some now,
        pending_resolution_by_user_id := none,
        resolved_by_user_id :=
          match pending_user_id with
          | some p => some p
          | none => inc.resolved_by_user_id,
        claims := claims, participants := participants, sessions := sessions,
        events := inc.events ++ [ev] }
      ((true, "Incident auto-closed."), { db with incident := some inc2 })

end KpiBot

namespace KpiBot

/-! ### Invariant I1 (claim counts versus status) -/

/-- The amended invariant I1: an incident has at least one active claim
exactly when it is In_Progress or Awaiting_Summary (request_resolution
keeps the resolver's claim active), and none exactly in the four other
statuses. -/
def invariant_I1 (inc : IncidentRows) : Prop :=
  (1 ≤ count_active_claims inc.claims ↔
    (inc.status = .inProgress ∨ inc.status = .awaitingSummary)) ∧
  (count_active_claims inc.claims = 0 ↔
    (inc.status = .awaitingDepartment ∨ inc.status = .awaitingClaim ∨
     inc.status = .resolved ∨ inc.status = .closed))

instance decidableInvariantI1 (inc : IncidentRows) : Decidable (invariant_I1 inc) := by
  unfold invariant_I1
  infer_instance

/-- Invariant I1 exactly as the specification states it: at least one active
claim iff In_Progress, and zero iff the status is among Awaiting_Department,
Awaiting_Claim, Resolved, Closed. -/
def literal_I1_check (inc : IncidentRows) : Bool :=
  (decide (1 ≤ count_active_claims inc.claims) ==
    decide (inc.status = .inProgress)) &&
  (decide (count_active_claims inc.claims = 0) ==
    decide (inc.status = .awaitingDepartment ∨ inc.status = .awaitingClaim ∨
            inc.status = .resolved ∨ inc.status = .closed))



/-! ### Invariant I5 (timestamp ordering) -/

/-- Pointwise order on optional timestamps: constrains only pairs where both
sides are non-null. -/
def optLe : Option Nat → Option Nat → Prop
  | some a, some b => a ≤ b
  | _, _ => True

instance decidableOptLe (a b : Option Nat) : Decidable (optLe a b) := by
  cases a <;> cases b <;> simp only [optLe] <;> infer_instance

/-- The amended invariant I5: the chain
t_first_claimed ≤ t_last_claimed ≤ t_resolution_requested ≤ t_resolved holds
whenever both sides are non-null (the claimed first link
t_department_assigned ≤ t_first_claimed is dropped: a transfer of a claimed
incident refreshes t_department_assigned but not t_first_claimed).  The last
clause makes the invariant inductive: before the closing phase the closing
timestamps are still null. -/
def invariant_I5 (inc : IncidentRows) : Prop :=
  optLe inc.t_first_claimed inc.t_last_claimed ∧
  optLe inc.t_last_claimed inc.t_resolution_requested ∧
  optLe inc.t_resolution_requested inc.t_resolved ∧
  ((inc.status = .awaitingDepartment ∨ inc.status = .awaitingClaim ∨
    inc.status = .inProgress) →
    inc.t_resolution_requested = none ∧ inc.t_resolved = none)

instance decidableInvariantI5 (inc : IncidentRows) : Decidable (invariant_I5 inc) := by
  unfold invariant_I5
  infer_instance

/-- The commit instant of an operation does not precede the timestamps
already stored on the incident (the clock is monotone across commits). -/
def clock_ok (inc : IncidentRows) (now : Nat) : Prop :=
  inc.t_first_claimed.getD 0 ≤ now ∧ inc.t_last_claimed.getD 0 ≤ now ∧
  inc.t_resolution_requested.getD 0 ≤ now

instance decidableClockOk (inc : IncidentRows) (now : Nat) :
    Decidable (clock_ok inc now) := by
  unfold clock_ok
  infer_instance

/-- Boolean version of `optLe`, for evaluated counterexamples. -/
def optLeB : Option Nat → Option Nat → Bool
  | some a, some b => a ≤ b
  | _, _ => true

/-- Invariant I5 exactly as the specification states it, including the
t_department_assigned ≤ t_first_claimed link. -/
def literal_I5_check (inc : IncidentRows) : Bool :=
  optLeB inc.t_department_assigned inc.t_first_claimed &&
  optLeB inc.t_first_claimed inc.t_last_claimed &&
  optLeB inc.t_last_claimed inc.t_resolution_requested &&
  optLeB inc.t_resolution_requested inc.t_resolved


/-! ### Incident id generation (Database.generate_incident_id) -/

/-- Numeric value of a decimal digit character. -/
def digitVal (c : Char) : Nat := c.toNat - 48

/-- The decimal digit character for a value below ten. -/
def digitChar : Nat → Char
  | 0 => '0'
  | 1 => '1'
  | 2 => '2'
  | 3 => '3'
  | 4 => '4'
  | 5 => '5'
  | 6 => '6'
  | 7 => '7'
  | 8 => '8'
  | 9 => '9'
  | _ => '*'

/-- One left-to-right scan computing the value of the last maximal digit run
of a character list (`re.findall(r"(\\d+)", ...)` followed by taking the last
group): `cur` is the value of the run in progress, `last` the value of the
last completed run (0 when none yet). -/
def lastDigitGroupAux : List Char → Option Nat → Nat → Nat
  | [], cur, last => cur.getD last
  | c :: cs, cur, last =>
    if c.isDigit then lastDigitGroupAux cs (some (10 * cur.getD 0 + digitVal c)) last
    else lastDigitGroupAux cs none (cur.getD last)

/-- extract_suffix inside Database.generate_incident_id: the numeric value of
the id's last digit group, 0 when the id has no digits. -/
def extract_suffix (s : String) : Nat := lastDigitGroupAux s.data none 0

/-- `max((extract_suffix(id) for id in rows), default=0)`. -/
def max_suffix (ids : List String) : Nat := (ids.map extract_suffix).foldl max 0

/-- Little-endian decimal digits of a positive number (empty for 0). -/
def toDecAux : Nat → List Char
  | 0 => []
  | n + 1 => digitChar ((n + 1) % 10) :: toDecAux ((n + 1) / 10)
decreasing_by simp_wf; omega

/-- The decimal digit string of a natural number. -/
def natToDecimal (n : Nat) : String :=
  if n = 0 then "0" else String.mk (toDecAux n).reverse

/-- Python `f"\x7bn:04d\x7d"`: the decimal string zero-padded to width 4. -/
def format04d (n : Nat) : String :=
  String.mk (List.replicate (4 - (natToDecimal n).length) '0' ++ (natToDecimal n).data)

/-- Database.generate_incident_id over the list of stored incident ids. -/
def generate_incident_id (ids : List String) : String :=
  format04d (max_suffix ids + 1)

/-- Value of a digit list read as a decimal number after `a`. -/
def decimalValAux (a : Nat) (cs : List Char) : Nat :=
  cs.foldl (fun x c => 10 * x + digitVal c) a

/-! ### Concrete stores used as witness and counterexample inputs -/

/-- An In_Progress incident claimed by user 7 in department 1. -/
def inc_ip : IncidentRows :=
  { status := .inProgress, company_id := some 5, department_id := some 1,
    created_by_handle := "@creator", description := "Brake light out on unit 12",
    pending_resolution_by_user_id := none, resolved_by_user_id := none,
    resolution_summary := none, t_created := 0,
    t_department_assigned := some 10, t_first_claimed := some 20,
    t_last_claimed := some 20, t_resolution_requested := none, t_resolved := none,
    current_department_session_id := some 1,
    claims := [{ user_id := 7, department_id := some 1, claimed_at := 20,
                 released_at := none, is_active := true }],
    participants := [{ user_id := 7, department_id := some 1, first_claimed_at := 20,
                       last_claimed_at := 20, active_since := some 20, is_active := true,
                       status := "active", join_count := 1, total_active_seconds := 0,
                       last_released_at := none, resolved_at := none,
                       outcome_detail := none }],
    sessions := [{ session_id := 1, department_id := 1, assigned_at := 10,
                   assigned_by_user_id := some 3, claimed_at := some 20,
                   released_at := none, status := "active" }],
    events := [] }

/-- A store with two departments of company 5 holding `inc_ip`. -/
def db_ip : DB :=
  { departments := [{ department_id := 1, company_id := 5, name := "Maintenance",
                      restricted_to_department_members := false },
                    { department_id := 2, company_id := 5, name := "Dispatch",
                      restricted_to_department_members := false }],
    department_members := [(1, 7), (1, 9), (2, 8)],
    incident := some inc_ip }

/-- The store after user 7 releases their claim on `db_ip` at time 40. -/
def inc_ip_released7 : IncidentRows :=
  ((release_claim db_ip 7 40).2.incident).getD default

/-- The store after user 7 requests resolution on `db_ip` at time 30. -/
def inc_ip_reqres : IncidentRows :=
  ((request_resolution db_ip 7 30).2.incident).getD default

/-- An Awaiting_Summary incident: user 7 requested resolution at 30 on the
incident of `inc_ip`. -/
def inc_as : IncidentRows :=
  { inc_ip with
    status := .awaitingSummary, pending_resolution_by_user_id := some 7,
    t_resolution_requested := some 30 }

/-- The store `db_ip` with its incident awaiting a summary from user 7. -/
def db_as : DB := { db_ip with incident := some inc_as }

/-- Checks that a store holds a Resolved incident whose stored summary is the
empty string. -/
def resolved_with_empty_summary (db : DB) : Bool :=
  match db.incident with
  | some i => i.status == .resolved && i.resolution_summary == some ""
  | none => false

/-- A Resolved incident (the closed-out version of `inc_ip`). -/
def inc_res : IncidentRows :=
  { inc_ip with
    status := .resolved,
    pending_resolution_by_user_id := none, resolved_by_user_id := some 7,
    resolution_summary := some "Bulb replaced", t_resolution_requested := some 30,
    t_resolved := some 50,
    claims := [{ user_id := 7, department_id := some 1, claimed_at := 20,
                 released_at := some 50, is_active := false }],
    participants := [{ user_id := 7, department_id := some 1, first_claimed_at := 20,
                       last_claimed_at := 20, active_since := none, is_active := false,
                       status := "resolved_self", join_count := 1,
                       total_active_seconds := 0, last_released_at := some 50,
                       resolved_at := some 50, outcome_detail := none }],
    sessions := [{ session_id := 1, department_id := 1, assigned_at := 10,
                   assigned_by_user_id := some 3, claimed_at := some 20,
                   released_at := some 50, status := "resolved" }] }

/-- The store `db_ip` with its incident already resolved. -/
def db_res : DB := { db_ip with incident := some inc_res }


/-- The postcondition of a successful assign_incident_department call, as
claim C4 states it (with the extra same-department precondition of C10 made
explicit in the theorem's hypotheses): result ok; every active claim closed
at now with its participant rollup finalized as transferred; every active
department session closed as transferred; one new active session for the new
department; department_id, status and t_department_assigned updated; one
department_assigned event whose metadata records department_id,
previous_department_id and status_before. -/
def assign_success_post (db : DB) (inc : IncidentRows) (d a : Int) (now : Nat) : Prop :=
  (assign_incident_department db d a now).1 = (true, "Department updated") ∧
  ∃ inc2, (assign_incident_department db d a now).2.incident = some inc2 ∧
    inc2.department_id = some d ∧
    inc2.status = .awaitingClaim ∧
    inc2.t_department_assigned = some now ∧
    count_active_claims inc2.claims = 0 ∧
    (∀ c ∈ inc.claims, c.is_active = true →
      ({ c with is_active := false, released_at := some now } : ClaimRow) ∈ inc2.claims) ∧
    (∀ p ∈ inc2.participants,
      (∃ c ∈ inc.claims, c.is_active = true ∧
        participantMatches c.user_id c.department_id p = true) →
      p.status = "transferred" ∧ p.is_active = false ∧ p.last_released_at = some now) ∧
    (∀ s0 ∈ inc.sessions, s0.status = "active" →
      ({ s0 with status := "transferred", released_at := some now } : SessionRow) ∈
        inc2.sessions) ∧
    (∃ snew ∈ inc2.sessions, snew.department_id = d ∧ snew.assigned_at = now ∧
      snew.assigned_by_user_id = some a ∧ snew.status = "active" ∧
      snew.claimed_at = none) ∧
    (∃ ev, inc2.events = inc.events ++ [ev] ∧ ev.event_type = "department_assigned" ∧
      ev.actor_user_id = some a ∧
      ev.metadata.lookup "department_id" = some (.jnum d) ∧
      ev.metadata.lookup "previous_department_id" = some (jsonOfOptInt inc.department_id) ∧
      ev.metadata.lookup "status_before" = some (.jstr inc.status.str))

/-- An active participant rollup: user 7 active since microsecond 1000000
with 7 seconds already accrued. -/
def pr_row : ParticipantRow :=
  { user_id := 7, department_id := some 1, first_claimed_at := 5,
    last_claimed_at := 5, active_since := some 1000000, is_active := true,
    status := "active", join_count := 1, total_active_seconds := 7,
    last_released_at := none, resolved_at := none, outcome_detail := none }

/-- The rollup `pr_row` finalized as released at microsecond 3500000. -/
def pr_done : ParticipantRow :=
  ((finalize_participation [pr_row] 7 (some 1) 3500000 "released" none
    false).head?).getD default


/-! ### Callback handlers for department transfer (handlers.py) -/

/-- The visible outcome of _handle_reassign_department: an alert popup or the
acknowledgement of a performed transfer (chat-message edits and pings are
adapter effects outside the store model). -/
inductive ReassignOutcome where
  | alert (msg : String)
  | transferDone (ack : String)
deriving DecidableEq, Repr, Inhabited

/-- handlers._handle_reassign_department: the confirmed department-transfer
callback.  The only authorization check is membership of the current
department. -/
def handle_reassign_department (db : DB) (user_id target : Int) (now : Nat) :
    ReassignOutcome × DB :=
  match db.incident with
  | none => (.alert "Incident not found or not yet assigned.", db)
  | some inc =>
    match inc.department_id with
    | none => (.alert "Incident not found or not yet assigned.", db)
    | some cur =>
      if ¬ is_user_in_department db cur user_id then
        (.alert "Only members of the current department can transfer this issue.", db)
      else
        let r := assign_incident_department db target user_id now
        if r.1.1 then (.transferDone "Department updated", r.2)
        else (.alert r.1.2, r.2)

/-- Ascending insertion by department name (SQL ORDER BY name ASC of
list_company_departments). -/
def insertByName (d : DepartmentRow) : List DepartmentRow → List DepartmentRow
  | [] => [d]
  | x :: xs => if x.name < d.name then x :: insertByName d xs else d :: x :: xs

/-- Database.list_company_departments: the company's departments ordered by
name. -/
def list_company_departments (db : DB) (company_id : Int) : List DepartmentRow :=
  (db.departments.filter (fun dp => dp.company_id == company_id)).foldl
    (fun acc dp => insertByName dp acc) []

/-- The selection buttons built by MessageBuilder.build_department_selection
for the reassign flow: the label carries a lock marker when the department
metadata has restricted_to_department_members — the only use of that flag in
the code — and the callback data is
reassign_department:incident_id:department_id. -/
def selectionButtons (departments : List DepartmentRow) (incident_id : String) :
    List (String × String) :=
  departments.map fun dp =>
    ((if dp.restricted_to_department_members then "🔒 " ++ dp.name else dp.name),
     "reassign_department:" ++ incident_id ++ ":" ++ toString dp.department_id)

/-- The visible outcome of _handle_change_department: an alert popup or the
department-selection menu with its buttons. -/
inductive ChangeOutcome where
  | alert (msg : String)
  | menu (buttons : List (String × String)) (ack : String)
deriving DecidableEq, Repr, Inhabited

/-- The branch taken by _handle_change_department: which alert was raised, or
that the selection menu was shown (ignoring the buttons' labels). -/
def ChangeOutcome.kind : ChangeOutcome → String
  | .alert m => "alert:" ++ m
  | .menu _ ack => "menu:" ++ ack

/-- handlers._handle_change_department: prompt the transfer menu.  The
company id comes from the group membership of the chat; the incident id is
embedded in the callback data. -/
def handle_change_department (db : DB) (user_id : Int) (company_id : Int)
    (incident_id : String) : ChangeOutcome :=
  match db.incident with
  | none => .alert "Set a department first."
  | some inc =>
    match inc.department_id with
    | none => .alert "Set a department first."
    | some cur =>
      if ¬ is_user_in_department db cur user_id then
        .alert "Only members of the current department can transfer this issue."
      else
        let departments := list_company_departments db company_id
        if departments.isEmpty then .alert "No departments configured."
        else .menu (selectionButtons departments incident_id) "Choose new department"

/-- Override the restricted_to_department_members flag of a department row. -/
def flag_overridden (b : Bool) (dp : DepartmentRow) : DepartmentRow :=
  { dp with restricted_to_department_members := b }

/-- The same store with every department's restricted_to_department_members
flag forced to `b`. -/
def set_restricted (db : DB) (b : Bool) : DB :=
  { db with departments := db.departments.map (flag_overridden b) }

/-- The store `db_ip` with the current department marked
restricted_to_department_members. -/
def db_locked : DB := set_restricted db_ip true


/-! ### The reminder scheduler (reminders.py)

Time in this module is counted in minutes: `World.now` is UTC minutes (the
timestamps of its incidents use the same scale), and the shift-start window
uses local minutes from an epoch falling on a Monday 00:00, so that the
weekday of a minute instant t is (t / 1440) % 7. -/

/-- A stored incident row together with the store-level columns the reminder
service reads. -/
structure StoredIncident where
  incident_id : String
  group_id : Int
  pinned_message_id : Option Int
  rows : IncidentRows
deriving DecidableEq, Repr, Inhabited

/-- A group row; is_active stands for status == "active". -/
structure GroupRow where
  group_id : Int
  company_id : Int
  is_active : Bool
deriving DecidableEq, Repr, Inhabited

/-- A user row, restricted to the handle fields the reminder service reads. -/
structure UserRow where
  user_id : Int
  telegram_handle : Option String
  username : Option String
deriving DecidableEq, Repr, Inhabited

/-- One member-schedule entry (already integer-parsed; entries whose fields
fail int() are skipped by the source and omitted from the model). -/
structure ScheduleEntry where
  enabled : Bool
  day : Int
  start_minute : Int
deriving DecidableEq, Repr, Inhabited

/-- A department member with schedule, as returned by the group-department
members query. -/
structure MemberInfo where
  user_id : Int
  telegram_handle : Option String
  username : Option String
  schedule : List ScheduleEntry
deriving DecidableEq, Repr, Inhabited

/-- The slice of the store and configuration the reminder service reads. -/
structure World where
  departments : List DepartmentRow
  department_members : List (Int × Int)
  groups : List GroupRow
  users : List UserRow
  group_department_members : List ((Int × Int) × List MemberInfo)
  incidents : List StoredIncident
  now : Nat
  sla_unclaimed_nudge_minutes : Nat
  sla_summary_timeout_minutes : Nat
  reminder_check_interval_minutes : Nat
deriving DecidableEq, Repr, Inhabited

/-- The in-memory state of ReminderService: the unclaimed-reminder map
(incident_id to t_department_assigned snapshot), the shift-ping key set, and
the last shift-check instant. -/
structure RemState where
  unclaimed_reminded : List (String × Nat)
  shift_start_pings : List String
  last_shift_check : Option Nat
deriving DecidableEq, Repr, Inhabited

/-- Chat-adapter calls issued during a tick. -/
inductive ChatAction where
  | sendMessage (chat_id : Int) (text : String) (reply_to : Option Int)
  | editMessage (chat_id : Int) (message_id : Int) (text : String)
  | unpinMessage (chat_id : Int) (message_id : Int)
deriving DecidableEq, Repr, Inhabited

/-- Python exceptions relevant to the model. -/
inductive PyError where
  | typeError
deriving DecidableEq, Repr, Inhabited

/-- Database.get_company_membership, reduced to what the reminder service
reads: present iff the group exists; is_active is status == "active". -/
def get_company_membership (w : World) (group_id : Int) : Option GroupRow :=
  w.groups.find? fun g => g.group_id == group_id

/-- Modelled from the spec: Database.get_current_unclaimed_incidents is
called by the shift-start step but its definition is not among the given
files; per the store query list (spec 4.2, unclaimed incidents) it is
modelled as the incidents currently in Awaiting_Claim. -/
def get_current_unclaimed_incidents (w : World) : List StoredIncident :=
  w.incidents.filter fun si => si.rows.status == Status.awaitingClaim

/-- Modelled from the spec: Database.get_group_department_members (the
members of a department visible in a chat group, with their schedules) is
called by the shift-start step but its definition is not among the given
files; it is modelled as a table lookup keyed by (group, department). -/
def get_group_department_members (w : World) (group_id dept : Int) : List MemberInfo :=
  (((w.group_department_members.find? fun e => e.1.1 == group_id && e.1.2 == dept)).map
    (·.2)).getD []

/-- Database.get_user_handle_or_fallback (user ids are non-zero, so Python
truthiness of user_id is non-null-ness). -/
def get_user_handle_or_fallback (w : World) (user_id : Option Int) : String :=
  match user_id with
  | none => "the assigned responder"
  | some uid =>
    match w.users.find? (fun u => u.user_id == uid) with
    | none => "User_" ++ toString uid
    | some u =>
      match u.telegram_handle with
      | some h => h
      | none =>
        match u.username with
        | some h => h
        | none => "User_" ++ toString uid

/-- Database.get_unclaimed_incidents: Awaiting_Claim incidents whose
t_department_assigned is at least the threshold in the past. -/
def get_unclaimed_incidents (w : World) (minutes_threshold : Nat) : List StoredIncident :=
  w.incidents.filter fun si =>
    si.rows.status == Status.awaitingClaim &&
    si.rows.t_department_assigned.isSome &&
    decide (si.rows.t_department_assigned.getD 0 ≤ w.now - minutes_threshold)

/-- Database.get_awaiting_summary_incidents: Awaiting_Summary incidents whose
t_resolution_requested is at least the threshold in the past. -/
def get_awaiting_summary_incidents (w : World) (minutes_threshold : Nat) :
    List StoredIncident :=
  w.incidents.filter fun si =>
    si.rows.status == Status.awaitingSummary &&
    si.rows.t_resolution_requested.isSome &&
    decide (si.rows.t_resolution_requested.getD 0 ≤ w.now - minutes_threshold)

/-- MessageBuilder.build_unclaimed_reminder. -/
def build_unclaimed_reminder (incident_id : String) (minutes : Int)
    (department_name : Option String) : String :=
  let department_line := match department_name with
    | some n => "Department: " ++ n ++ "\n"
    | none => ""
  "⏰ Unassigned ticket reminder\n------------------------------\nIncident: " ++
    incident_id ++ "\n" ++ department_line ++ "Unassigned for: " ++ toString minutes ++
    " minutes\n------------------------------\nPlease review the pinned ticket message " ++
    "and join if you are taking ownership."

/-- MessageBuilder.build_auto_close_notice. -/
def build_auto_close_notice (incident_id : String) (user_handle : String)
    (minutes : Nat) : String :=
  "Auto-closed " ++ incident_id ++ " after waiting " ++ toString minutes ++
    " minutes for " ++ user_handle ++ "\x27s summary. Reopen manually if more " ++
    "details are needed."

/-- html.escape with quote=True, as MessageBuilder._escape_text uses it. -/
def escapeHtmlChar (c : Char) : String :=
  if c = '&' then "&amp;"
  else if c = '<' then "&lt;"
  else if c = '>' then "&gt;"
  else if c = '"' then "&quot;"
  else if c = '\x27' then "&#x27;"
  else String.singleton c

def escapeHtml (s : String) : String := String.join (s.data.map escapeHtmlChar)

/-- MessageBuilder.build_closed_message (text part; no keyboard). -/
def build_closed_message (inc : IncidentRows) (incident_id : String)
    (closed_by : Option String) (reason : String) : String :=
  let closed_by_text := escapeHtml (closed_by.getD "System")
  let summary := match inc.resolution_summary with
    | some s => escapeHtml s
    | none => ""
  "❌ INCIDENT CLOSED\n------------------------------\nID: " ++ escapeHtml incident_id ++
    "\nStatus: ❌ Closed\nClosed by: " ++ closed_by_text ++ "\nReason: " ++
    escapeHtml reason ++ "\n------------------------------\nReported by: " ++
    escapeHtml inc.created_by_handle ++ "\nTicket:\n<i>" ++ escapeHtml inc.description ++
    "</i>\n------------------------------\nResolution summary:\n" ++ summary

/-- ReminderService._iter_schedule_start_events: schedule start instants
falling inside [window_start, window_end], in local minutes. -/
def iter_schedule_start_events (schedule : List ScheduleEntry)
    (window_start window_end : Nat) : List Nat :=
  if window_end ≤ window_start then []
  else
    let dayCount := window_end / 1440 - window_start / 1440
    let candidateDays := (List.range (dayCount + 1)).map fun i => window_start / 1440 + i
    schedule.foldl
      (fun acc e =>
        if e.enabled then
          candidateDays.foldl
            (fun acc2 d =>
              if (Int.ofNat (d % 7)) == e.day then
                let eventDt := d * 1440 + e.start_minute.toNat
                if window_start ≤ eventDt ∧ eventDt ≤ window_end then acc2 ++ [eventDt]
                else acc2
              else acc2)
            acc
        else acc)
      []

/-- The member handle used for shift pings. -/
def member_handle (m : MemberInfo) : String :=
  match m.telegram_handle with
  | some h => h
  | none =>
    match m.username with
    | some u => "@" ++ u
    | none => "User_" ++ toString m.user_id

/-- The shift-ping note (strftime output abstracted to the minute count; it
only flows into the call that raises). -/
def shift_note (now_local : Nat) : String :=
  "Shift start ping at " ++ toString now_local ++ " (server time)."

/-- reminders.py line 173 invokes MessageBuilder.build_department_ping with
three arguments (handles, incident_id, note) and iterates over the result
as a list, but the builder defined in message_builder.py takes exactly two
parameters and returns one string; in Python the call raises TypeError
before any message is produced. -/
def build_department_ping_call3 (_handles : List String) (_incident_id _note : String) :
    Except PyError (List String) :=
  .error .typeError

/-- Collect the deduplicated handles to ping for one incident, updating the
sent-ping key set. -/
def collect_shift_handles (members : List MemberInfo) (incident_id : String)
    (window_start window_end : Nat) (pings : List String) :
    List String × List String :=
  members.foldl
    (fun (acc : List String × List String) m =>
      (iter_schedule_start_events m.schedule window_start window_end).foldl
        (fun (acc2 : List String × List String) ev =>
          let key := incident_id ++ ":" ++ toString m.user_id ++ ":" ++ toString ev
          if acc2.1.contains key then acc2
          else
            let handle := member_handle m
            (acc2.1 ++ [key],
             if acc2.2.contains handle then acc2.2 else acc2.2 ++ [handle]))
        acc)
    (pings, [])

/-- The per-incident loop of _check_shift_start_pings.  A TypeError from the
arity-mismatched build_department_ping call propagates (only TelegramError
around the send is caught in the source). -/
def shift_ping_loop (w : World) (ws we now_local : Nat) :
    List StoredIncident → List String → Nat → List ChatAction →
    List String × Nat × List ChatAction × Option PyError
  | [], pings, count, acts => (pings, count, acts, none)
  | si :: rest, pings, count, acts =>
    if si.rows.department_id.isNone ∨ si.group_id == 0 then
      shift_ping_loop w ws we now_local rest pings count acts
    else
      match get_company_membership w si.group_id with
      | none => shift_ping_loop w ws we now_local rest pings count acts
      | some g =>
        if ¬ g.is_active then shift_ping_loop w ws we now_local rest pings count acts
        else
          let members := get_group_department_members w si.group_id
            (si.rows.department_id.getD 0)
          if members.isEmpty then shift_ping_loop w ws we now_local rest pings count acts
          else
            let hp := collect_shift_handles members si.incident_id ws we pings
            if hp.2.isEmpty then shift_ping_loop w ws we now_local rest hp.1 count acts
            else
              match build_department_ping_call3 hp.2 si.incident_id (shift_note now_local) with
              | .error e => (hp.1, count, acts, some e)
              | .ok msgs =>
                shift_ping_loop w ws we now_local rest hp.1 (count + msgs.length)
                  (acts ++ msgs.map fun t =>
                    ChatAction.sendMessage si.group_id t si.pinned_message_id)

/-- ReminderService._check_shift_start_pings. -/
def check_shift_start_pings (w : World) (st : RemState) (now_local : Nat) :
    RemState × List ChatAction × Except PyError Nat :=
  let window_start := st.last_shift_check.getD
    (now_local - w.reminder_check_interval_minutes)
  let st1 := { st with last_shift_check := some now_local }
  let incidents := get_current_unclaimed_incidents w
  if incidents.isEmpty then (st1, [], .ok 0)
  else
    match shift_ping_loop w window_start now_local now_local incidents
        st1.shift_start_pings 0 [] with
    | (pings, count, acts, none) =>
      let pings2 := if pings.length > 5000 then pings.drop (pings.length - 2500) else pings
      ({ st1 with shift_start_pings := pings2 }, acts, .ok count)
    | (pings, _, acts, some e) =>
      ({ st1 with shift_start_pings := pings }, acts, .error e)

/-- Insert or update a key of the unclaimed-reminder map. -/
def map_insert (m : List (String × Nat)) (k : String) (v : Nat) : List (String × Nat) :=
  if (m.lookup k).isSome then m.map (fun e => if e.1 == k then (k, v) else e)
  else m ++ [(k, v)]

/-- The per-incident loop of _check_unclaimed_reminders (each iteration runs
in its own try that catches every exception; sends are modelled as
succeeding). -/
def unclaimed_loop (w : World) :
    List StoredIncident → List (String × Nat) → Nat → List ChatAction →
    List (String × Nat) × Nat × List ChatAction
  | [], reminded, count, acts => (reminded, count, acts)
  | si :: rest, reminded, count, acts =>
    match si.rows.t_department_assigned with
    | none => unclaimed_loop w rest reminded count acts
    | some last_assigned =>
      if reminded.lookup si.incident_id == some last_assigned then
        unclaimed_loop w rest reminded count acts
      else
        match get_company_membership w si.group_id with
        | none => unclaimed_loop w rest reminded count acts
        | some g =>
          if ¬ g.is_active then unclaimed_loop w rest reminded count acts
          else
            let anchor := si.rows.t_department_assigned.getD si.rows.t_created
            let minutes_unclaimed : Int := (w.now : Int) - anchor
            let department_name := match si.rows.department_id with
              | some dpt => (w.departments.find? fun x => x.department_id == dpt).map (·.name)
              | none => none
            let text := build_unclaimed_reminder si.incident_id minutes_unclaimed
              department_name
            unclaimed_loop w rest (map_insert reminded si.incident_id last_assigned)
              (count + 1)
              (acts ++ [ChatAction.sendMessage si.group_id text si.pinned_message_id])

/-- ReminderService._check_unclaimed_reminders. -/
def check_unclaimed_reminders (w : World) (st : RemState) :
    RemState × List ChatAction × Nat :=
  match unclaimed_loop w (get_unclaimed_incidents w w.sla_unclaimed_nudge_minutes)
      st.unclaimed_reminded 0 [] with
  | (reminded, count, acts) => ({ st with unclaimed_reminded := reminded }, acts, count)

/-- Database.auto_close_incident applied inside the multi-incident store:
the single-incident transaction runs on the row with the given id. -/
def store_auto_close (w : World) (incident_id : String) (summary reason : String) :
    (Bool × String) × World :=
  match w.incidents.find? (fun si => si.incident_id == incident_id) with
  | none => ((false, "Incident not found."), w)
  | some si =>
    let db : DB := { departments := w.departments,
                     department_members := w.department_members,
                     incident := some si.rows }
    let r := auto_close_incident db summary reason w.now
    match r.2.incident with
    | some rows2 =>
      (r.1, { w with incidents := w.incidents.map fun si2 =>
        if si2.incident_id == incident_id then { si2 with rows := rows2 } else si2 })
    | none => (r.1, w)

/-- ReminderService.clear_reminder_for_incident. -/
def clear_reminder_for_incident (st : RemState) (incident_id : String) : RemState :=
  { st with unclaimed_reminded :=
      st.unclaimed_reminded.filter fun e => ¬ e.1 == incident_id }

/-- The per-incident loop of _check_summary_timeouts (each iteration runs in
its own try that catches every exception; adapter calls are modelled as
succeeding). -/
def summary_loop (minutes : Nat) :
    List StoredIncident → World → RemState → Nat → List ChatAction →
    World × RemState × Nat × List ChatAction
  | [], w, st, count, acts => (w, st, count, acts)
  | si :: rest, w, st, count, acts =>
    let pending_handle := get_user_handle_or_fallback w si.rows.pending_resolution_by_user_id
    let closing_summary := "Auto-closed after waiting " ++ toString minutes ++
      " minutes for a resolution summary from " ++ pending_handle ++
      ". No response received."
    let r := store_auto_close w si.incident_id closing_summary "summary_timeout"
    if ¬ r.1.1 then summary_loop minutes rest r.2 st count acts
    else
      match r.2.incidents.find? (fun s2 => s2.incident_id == si.incident_id) with
      | none => summary_loop minutes rest r.2 st count acts
      | some upd =>
        let closed_text := build_closed_message upd.rows si.incident_id
          (some pending_handle) "No resolution summary received"
        let acts2 := match si.pinned_message_id with
          | some mid => acts ++ [ChatAction.editMessage si.group_id mid closed_text,
                                 ChatAction.unpinMessage si.group_id mid]
          | none => acts ++ [ChatAction.sendMessage si.group_id closed_text none]
        let notice := build_auto_close_notice si.incident_id pending_handle minutes
        summary_loop minutes rest r.2 (clear_reminder_for_incident st si.incident_id)
          (count + 1)
          (acts2 ++ [ChatAction.sendMessage si.group_id notice si.pinned_message_id])

/-- ReminderService._check_summary_timeouts. -/
def check_summary_timeouts (w : World) (st : RemState) :
    World × RemState × Nat × List ChatAction :=
  summary_loop w.sla_summary_timeout_minutes
    (get_awaiting_summary_incidents w w.sla_summary_timeout_minutes) w st 0 []

/-- The observable result of one scheduler tick: the step counters are none
for every step that never ran because an earlier step raised. -/
structure TickResult where
  world : World
  state : RemState
  actions : List ChatAction
  shift_ping_count : Option Nat
  unclaimed_count : Option Nat
  timeout_count : Option Nat
  error_caught : Option PyError
deriving DecidableEq, Repr, Inhabited

/-- ReminderService.check_and_send_reminders: one scheduler tick.  The three
steps run inside a single try; an exception escaping a step is caught at the
top level, logged, and ends the tick — the later steps never run. -/
def check_and_send_reminders (w : World) (st : RemState) (now_local : Nat) : TickResult :=
  match check_shift_start_pings w st now_local with
  | (st1, acts1, .error e) =>
    { world := w, state := st1, actions := acts1, shift_ping_count := none,
      unclaimed_count := none, timeout_count := none, error_caught := some e }
  | (st1, acts1, .ok n1) =>
    match check_unclaimed_reminders w st1 with
    | (st2, acts2, n2) =>
      match check_summary_timeouts w st2 with
      | (w3, st3, n3, acts3) =>
        { world := w3, state := st3, actions := acts1 ++ acts2 ++ acts3,
          shift_ping_count := some n1, unclaimed_count := some n2,
          timeout_count := some n3, error_caught := none }

/-- An unclaimed incident whose department has a member with a shift
starting inside the current check window. -/
def inc_shift : IncidentRows :=
  { status := .awaitingClaim, company_id := some 5, department_id := some 1,
    created_by_handle := "@creator", description := "Flat tire on unit 3",
    pending_resolution_by_user_id := none, resolved_by_user_id := none,
    resolution_summary := none, t_created := 9000,
    t_department_assigned := some 90, t_first_claimed := none,
    t_last_claimed := none, t_resolution_requested := none, t_resolved := none,
    current_department_session_id := some 1,
    claims := [], participants := [],
    sessions := [{ session_id := 1, department_id := 1, assigned_at := 90,
                   assigned_by_user_id := some 3, claimed_at := none,
                   released_at := none, status := "active" }],
    events := [] }

/-- An incident that has been awaiting its summary since minute 10, far past
the timeout. -/
def inc_overdue : IncidentRows :=
  { status := .awaitingSummary, company_id := some 5, department_id := some 1,
    created_by_handle := "@creator", description := "Brake light out",
    pending_resolution_by_user_id := some 7, resolved_by_user_id := none,
    resolution_summary := none, t_created := 0,
    t_department_assigned := some 5, t_first_claimed := some 6,
    t_last_claimed := some 6, t_resolution_requested := some 10, t_resolved := none,
    current_department_session_id := some 1,
    claims := [{ user_id := 7, department_id := some 1, claimed_at := 6,
                 released_at := none, is_active := true }],
    participants := [{ user_id := 7, department_id := some 1, first_claimed_at := 6,
                       last_claimed_at := 6, active_since := some 6, is_active := true,
                       status := "active", join_count := 1, total_active_seconds := 0,
                       last_released_at := none, resolved_at := none,
                       outcome_detail := none }],
    sessions := [{ session_id := 1, department_id := 1, assigned_at := 5,
                   assigned_by_user_id := some 3, claimed_at := some 6,
                   released_at := none, status := "active" }],
    events := [] }

/-- A reminder-service world at UTC minute 100 holding one unclaimed incident
with a due shift ping and one Awaiting_Summary incident past the timeout. -/
def w_bug : World :=
  { departments := [{ department_id := 1, company_id := 5, name := "Maintenance",
                      restricted_to_department_members := false }],
    department_members := [(1, 7)],
    groups := [{ group_id := -100, company_id := 5, is_active := true }],
    users := [{ user_id := 7, telegram_handle := some "@bob", username := none }],
    group_department_members :=
      [((-100, 1), [{ user_id := 9, telegram_handle := some "@ann", username := none,
                      schedule := [{ enabled := true, day := 0, start_minute := 0 }] }])],
    incidents := [{ incident_id := "0001", group_id := -100, pinned_message_id := some 41,
                    rows := inc_shift },
                  { incident_id := "0002", group_id := -100, pinned_message_id := some 55,
                    rows := inc_overdue }],
    now := 100, sla_unclaimed_nudge_minutes := 30, sla_summary_timeout_minutes := 60,
    reminder_check_interval_minutes := 5 }

/-- A fresh reminder-service state. -/
def st_init : RemState :=
  { unclaimed_reminded := [], shift_start_pings := [], last_shift_check := none }

/-- The adapter-call species, for stating which calls a tick made. -/
def ChatAction.kind : ChatAction → String
  | .sendMessage _ _ _ => "send"
  | .editMessage _ _ _ => "edit"
  | .unpinMessage _ _ => "unpin"

/-- The world `w_bug` with the member shift disabled, so that no shift ping
is due and the tick survives its first step. -/
def w_ok : World :=
  { w_bug with
    group_department_members :=
      [((-100, 1), [{ user_id := 9, telegram_handle := some "@ann", username := none,
                      schedule := [{ enabled := false, day := 0, start_minute := 0 }] }])] }

/-! ### Shared lemmas about claims and participants -/

theorem count_active_claims_append (cs ds : List ClaimRow) :
    count_active_claims (cs ++ ds) = count_active_claims cs + count_active_claims ds := by
  simp [count_active_claims, List.filter_append]

theorem count_active_claims_close (cs : List ClaimRow) (t : Nat) :
    count_active_claims (close_active_claims cs t) = 0 := by
  induction cs with
  | nil => rfl
  | cons c cs ih =>
    cases hc : c.is_active <;>
      simp [close_active_claims, count_active_claims, List.filter, hc] at ih ⊢ <;>
      simpa [close_active_claims, count_active_claims] using ih

theorem one_le_count_of_mem_active (cs : List ClaimRow) (c : ClaimRow)
    (hm : c ∈ cs) (ha : c.is_active = true) : 1 ≤ count_active_claims cs := by
  have : c ∈ cs.filter (·.is_active) := List.mem_filter.mpr ⟨hm, by simp [ha]⟩
  have := List.length_pos_of_mem this
  simpa [count_active_claims] using this

theorem one_le_count_of_has_active (inc : IncidentRows) (u : Int)
    (h : has_active_claim inc u = true) : 1 ≤ count_active_claims inc.claims := by
  simp only [has_active_claim, List.any_eq_true] at h
  obtain ⟨c, hm, hp⟩ := h
  have ha : c.is_active = true := by
    cases hact : c.is_active <;> simp [hact] at hp ⊢
  exact one_le_count_of_mem_active inc.claims c hm ha

theorem one_le_count_of_find_active (cs : List ClaimRow) (u : Int) (c : ClaimRow)
    (h : cs.find? (fun c => c.user_id == u && c.is_active) = some c) :
    1 ≤ count_active_claims cs := by
  have hm : c ∈ cs := List.mem_of_find?_eq_some h
  have hp := List.find?_some h
  have ha : c.is_active = true := by
    cases hact : c.is_active <;> simp [hact] at hp ⊢
  exact one_le_count_of_mem_active cs c hm ha

/-- claim_incident never commits: the error returns hand the store back
untouched, and the guard-passing path raises IndexError
(database.py:2037), so get_connection rolls the writes back. -/
theorem claim_incident_state_unchanged (db : DB) (u : Int) (now : Nat) :
    (claim_incident db u now).2 = db := by
  unfold claim_incident
  cases db.incident with
  | none => rfl
  | some inc =>
    cases hd : inc.department_id with
    | none => simp [hd]
    | some dept =>
      by_cases hst : inc.status = Status.awaitingClaim ∨ inc.status = Status.inProgress
      · by_cases hac : has_active_claim inc u = true
        · simp [hd, hst, hac]
        · simp [hd, hst, hac]
      · simp [hd, hst]

theorem claim_incident_preserves_I1 (db : DB) (inc : IncidentRows)
    (h : db.incident = some inc) (hinv : invariant_I1 inc) :
    ∀ u now inc2, (claim_incident db u now).2.incident = some inc2 → invariant_I1 inc2 := by
  intro u now inc2 hres
  rw [claim_incident_state_unchanged, h] at hres
  cases hres
  exact hinv

theorem release_claim_preserves_I1 (db : DB) (inc : IncidentRows)
    (h : db.incident = some inc) (hinv : invariant_I1 inc) :
    ∀ u now inc2, (release_claim db u now).2.incident = some inc2 → invariant_I1 inc2 := by
  intro u now inc2 hres
  simp only [release_claim, h] at hres
  by_cases hst : inc.status = Status.awaitingClaim ∨ inc.status = Status.inProgress
  · cases hfind : inc.claims.find? (fun c => c.user_id == u && c.is_active) with
    | none =>
      simp [hst, hfind] at hres
      rw [h] at hres
      cases hres
      exact hinv
    | some claim_row =>
      simp only [hst, hfind, if_pos, if_neg, not_true, not_false_iff] at hres
      have hpos : 1 ≤ count_active_claims inc.claims :=
        one_le_count_of_find_active inc.claims u claim_row hfind
      have hip : inc.status = Status.inProgress := by
        rcases (hinv.1.mp hpos) with hs | hs
        · exact hs
        · rcases hst with h1 | h1 <;> rw [h1] at hs <;> cases hs
      simp only [not_or] at *
      simp [hip] at hres
      cases hres
      constructor
      · split_ifs with h0
        · simp [h0]
        · simp [Nat.one_le_iff_ne_zero, h0]
      · split_ifs with h0
        · simp [h0]
        · simp [h0]
  · simp [hst] at hres
    rw [h] at hres
    cases hres
    exact hinv

theorem assign_department_preserves_I1 (db : DB) (inc : IncidentRows)
    (h : db.incident = some inc) (hinv : invariant_I1 inc) :
    ∀ d a now inc2,
      (assign_incident_department db d a now).2.incident = some inc2 → invariant_I1 inc2 := by
  intro d a now inc2 hres
  simp only [assign_incident_department, h] at hres
  by_cases hs1 : inc.status = Status.resolved ∨ inc.status = Status.closed ∨
      inc.status = Status.awaitingSummary
  · simp [hs1] at hres
    rw [h] at hres
    cases hres
    exact hinv
  · by_cases hs2 : inc.department_id = some d ∧ inc.status ≠ Status.awaitingDepartment
    · simp [hs1, hs2] at hres
      rw [h] at hres
      cases hres
      exact hinv
    · cases hfd : findDepartment db d with
      | none =>
        simp [hs1, hs2, hfd] at hres
        rw [h] at hres
        cases hres
        exact hinv
      | some dept =>
        by_cases hcm : companyMismatch inc dept = true
        · simp [hs1, hs2, hfd, hcm] at hres
          rw [h] at hres
          cases hres
          exact hinv
        · simp only [Bool.not_eq_true] at hcm
          simp [hs1, hs2, hfd, hcm] at hres
          cases hres
          constructor
          · split_ifs with hemp
            · have hnil : inc.claims.filter (·.is_active) = [] :=
                List.filter_eq_nil_iff.mpr (fun c hc => by simp [hemp c hc])
              simp [count_active_claims, hnil]
            · simp [count_active_claims_close]
          · split_ifs with hemp
            · have hnil : inc.claims.filter (·.is_active) = [] :=
                List.filter_eq_nil_iff.mpr (fun c hc => by simp [hemp c hc])
              simp [count_active_claims, hnil]
            · simp [count_active_claims_close]

theorem request_resolution_preserves_I1 (db : DB) (inc : IncidentRows)
    (h : db.incident = some inc) (hinv : invariant_I1 inc) :
    ∀ u now inc2, (request_resolution db u now).2.incident = some inc2 → invariant_I1 inc2 := by
  intro u now inc2 hres
  simp only [request_resolution, h] at hres
  by_cases hst : inc.status = Status.inProgress
  · by_cases hac : has_active_claim inc u = true
    · simp [hst, hac] at hres
      cases hres
      have hpos := one_le_count_of_has_active inc u hac
      constructor
      · simp [hpos]
      · simp
        omega
    · simp only [Bool.not_eq_true] at hac
      simp [hst, hac] at hres
      rw [h] at hres
      cases hres
      exact hinv
  · simp [hst] at hres
    rw [h] at hres
    cases hres
    exact hinv

theorem resolve_incident_preserves_I1 (db : DB) (inc : IncidentRows)
    (h : db.incident = some inc) (hinv : invariant_I1 inc) :
    ∀ u s now inc2,
      (resolve_incident db u s now).2.incident = some inc2 → invariant_I1 inc2 := by
  intro u s now inc2 hres
  simp only [resolve_incident, h] at hres
  by_cases hc : inc.status = Status.awaitingSummary ∧
      inc.pending_resolution_by_user_id = some u
  · simp [hc] at hres
    cases hres
    constructor <;> simp [count_active_claims_close]
  · simp [hc] at hres
    rw [h] at hres
    cases hres
    exact hinv

theorem auto_close_preserves_I1 (db : DB) (inc : IncidentRows)
    (h : db.incident = some inc) (hinv : invariant_I1 inc) :
    ∀ s r now inc2,
      (auto_close_incident db s r now).2.incident = some inc2 → invariant_I1 inc2 := by
  intro s r now inc2 hres
  simp only [auto_close_incident, h] at hres
  by_cases hst : inc.status = Status.awaitingSummary
  · simp [hst] at hres
    cases hres
    constructor <;> simp [count_active_claims_close]
  · simp [hst] at hres
    rw [h] at hres
    cases hres
    exact hinv

/-- C3: the amended invariant I1 is preserved by every lifecycle operation:
for every incident, the number of active claims is at least 1 iff its status
is In_Progress or Awaiting_Summary, and exactly 0 iff its status is in
Awaiting_Department, Awaiting_Claim, Resolved or Closed.  (The claim's
literal version, with In_Progress alone on the first side, fails:
see the counterexample theorem.  claim_incident preserves the invariant
trivially: its guard-passing path raises IndexError at database.py:2037 and
the transaction rolls back, so its returned store is always the input
store.) -/
theorem lifecycle_preserves_invariant_I1 (db : DB) (inc : IncidentRows)
    (h : db.incident = some inc) (hinv : invariant_I1 inc) :
    (∀ u now inc2,
      (claim_incident db u now).2.incident = some inc2 → invariant_I1 inc2) ∧
    (∀ u now inc2,
      (release_claim db u now).2.incident = some inc2 → invariant_I1 inc2) ∧
    (∀ d a now inc2,
      (assign_incident_department db d a now).2.incident = some inc2 → invariant_I1 inc2) ∧
    (∀ u now inc2,
      (request_resolution db u now).2.incident = some inc2 → invariant_I1 inc2) ∧
    (∀ u s now inc2,
      (resolve_incident db u s now).2.incident = some inc2 → invariant_I1 inc2) ∧
    (∀ s r now inc2,
      (auto_close_incident db s r now).2.incident = some inc2 → invariant_I1 inc2) :=
  ⟨claim_incident_preserves_I1 db inc h hinv,
   release_claim_preserves_I1 db inc h hinv,
   assign_department_preserves_I1 db inc h hinv,
   request_resolution_preserves_I1 db inc h hinv,
   resolve_incident_preserves_I1 db inc h hinv,
   auto_close_preserves_I1 db inc h hinv⟩

/-- C3 counterexample: the literal invariant I1 (at least one active claim iff
In_Progress) is not preserved: request_resolution on an In_Progress incident
with one active claim yields an Awaiting_Summary incident that still has one
active claim. -/
theorem literal_I1_not_preserved :
    literal_I1_check inc_ip = true ∧
    ((request_resolution db_ip 7 30).2.incident.map literal_I1_check) = some false := by
  decide

/-- C3 witness: the preservation theorem applied to the concrete store
`db_ip` and the release by user 7 at time 40. -/
theorem lifecycle_preserves_invariant_I1_witness :
    invariant_I1 inc_ip ∧ invariant_I1 inc_ip_released7 :=
  ⟨by decide,
   (lifecycle_preserves_invariant_I1 db_ip inc_ip rfl (by decide)).2.1 7 40
     inc_ip_released7 (by decide)⟩

/-- C1: refuted on the code — claim_incident can never commit the claimed
effects.  Its opening SELECT fetches only status and department_id
(database.py:1997-1999), yet the claim event metadata reads
incident[\x27t_first_claimed\x27] (database.py:2037); sqlite3.Row raises
IndexError for a column the SELECT did not return, get_connection rolls the
transaction back and re-raises.  First conjunct: on the concrete store
`db_ip` every precondition of the claim holds (status In_Progress,
department 1, user 9 holds no active claim), yet the call raises IndexError
and the store is unchanged — no ok result, no new claim row, no event.
Second conjunct: on every store and input the returned store equals the
input store, so no call of claim_incident commits anything. -/
theorem claim_incident_always_raises :
    (inc_ip.status = .inProgress ∧ inc_ip.department_id = some 1 ∧
     has_active_claim inc_ip 9 = false ∧
     claim_incident db_ip 9 40 = (.error .indexError, db_ip)) ∧
    ∀ (db : DB) (u : Int) (now : Nat), (claim_incident db u now).2 = db :=
  ⟨⟨rfl, rfl, rfl, rfl⟩, fun db u now => claim_incident_state_unchanged db u now⟩

theorem claim_incident_preserves_I5 (db : DB) (inc : IncidentRows)
    (h : db.incident = some inc) (hinv : invariant_I5 inc) :
    ∀ u now inc2, clock_ok inc now →
      (claim_incident db u now).2.incident = some inc2 → invariant_I5 inc2 := by
  intro u now inc2 _ hres
  rw [claim_incident_state_unchanged, h] at hres
  cases hres
  exact hinv

theorem release_claim_preserves_I5 (db : DB) (inc : IncidentRows)
    (h : db.incident = some inc) (hinv : invariant_I5 inc) :
    ∀ u now inc2, clock_ok inc now →
      (release_claim db u now).2.incident = some inc2 → invariant_I5 inc2 := by
  intro u now inc2 _ hres
  simp only [release_claim, h] at hres
  by_cases hst : inc.status = Status.awaitingClaim ∨ inc.status = Status.inProgress
  · cases hfind : inc.claims.find? (fun c => c.user_id == u && c.is_active) with
    | none =>
      simp [hst, hfind] at hres
      rw [h] at hres
      cases hres
      exact hinv
    | some claim_row =>
      simp only [hst, hfind] at hres
      simp at hres
      cases hres
      have hrr : inc.t_resolution_requested = none ∧ inc.t_resolved = none := by
        refine hinv.2.2.2 ?_
        rcases hst with h1 | h1
        · exact Or.inr (Or.inl h1)
        · exact Or.inr (Or.inr h1)
      exact ⟨hinv.1, hinv.2.1, hinv.2.2.1, fun _ => ⟨hrr.1, hrr.2⟩⟩
  · simp [hst] at hres
    rw [h] at hres
    cases hres
    exact hinv

theorem assign_department_preserves_I5 (db : DB) (inc : IncidentRows)
    (h : db.incident = some inc) (hinv : invariant_I5 inc) :
    ∀ d a now inc2, clock_ok inc now →
      (assign_incident_department db d a now).2.incident = some inc2 →
      invariant_I5 inc2 := by
  intro d a now inc2 _ hres
  simp only [assign_incident_department, h] at hres
  by_cases hs1 : inc.status = Status.resolved ∨ inc.status = Status.closed ∨
      inc.status = Status.awaitingSummary
  · simp [hs1] at hres
    rw [h] at hres
    cases hres
    exact hinv
  · by_cases hs2 : inc.department_id = some d ∧ inc.status ≠ Status.awaitingDepartment
    · simp [hs1, hs2] at hres
      rw [h] at hres
      cases hres
      exact hinv
    · cases hfd : findDepartment db d with
      | none =>
        simp [hs1, hs2, hfd] at hres
        rw [h] at hres
        cases hres
        exact hinv
      | some dept =>
        by_cases hcm : companyMismatch inc dept = true
        · simp [hs1, hs2, hfd, hcm] at hres
          rw [h] at hres
          cases hres
          exact hinv
        · simp only [Bool.not_eq_true] at hcm
          simp [hs1, hs2, hfd, hcm] at hres
          cases hres
          have hrr : inc.t_resolution_requested = none ∧ inc.t_resolved = none := by
            refine hinv.2.2.2 ?_
            cases hstatus : inc.status <;> simp_all
          exact ⟨hinv.1, hinv.2.1, hinv.2.2.1, fun _ => ⟨hrr.1, hrr.2⟩⟩

theorem request_resolution_preserves_I5 (db : DB) (inc : IncidentRows)
    (h : db.incident = some inc) (hinv : invariant_I5 inc) :
    ∀ u now inc2, clock_ok inc now →
      (request_resolution db u now).2.incident = some inc2 → invariant_I5 inc2 := by
  intro u now inc2 hck hres
  simp only [request_resolution, h] at hres
  by_cases hst : inc.status = Status.inProgress
  · by_cases hac : has_active_claim inc u = true
    · simp [hst, hac] at hres
      cases hres
      have hrr : inc.t_resolution_requested = none ∧ inc.t_resolved = none :=
        hinv.2.2.2 (Or.inr (Or.inr hst))
      refine ⟨hinv.1, ?_, ?_, ?_⟩
      · cases hlc : inc.t_last_claimed with
        | none => simp [optLe, hlc]
        | some l =>
          have hl := hck.2.1
          rw [hlc] at hl
          simpa [optLe, hlc] using hl
      · simp [optLe, hrr.2]
      · intro hs
        rcases hs with h1 | h1 | h1 <;> cases h1
    · simp only [Bool.not_eq_true] at hac
      simp [hst, hac] at hres
      rw [h] at hres
      cases hres
      exact hinv
  · simp [hst] at hres
    rw [h] at hres
    cases hres
    exact hinv

theorem resolve_incident_preserves_I5 (db : DB) (inc : IncidentRows)
    (h : db.incident = some inc) (hinv : invariant_I5 inc) :
    ∀ u s now inc2, clock_ok inc now →
      (resolve_incident db u s now).2.incident = some inc2 → invariant_I5 inc2 := by
  intro u s now inc2 hck hres
  simp only [resolve_incident, h] at hres
  by_cases hc : inc.status = Status.awaitingSummary ∧
      inc.pending_resolution_by_user_id = some u
  · simp [hc] at hres
    cases hres
    refine ⟨hinv.1, hinv.2.1, ?_, ?_⟩
    · cases hrr : inc.t_resolution_requested with
      | none => simp [optLe, hrr]
      | some r =>
        have hr := hck.2.2
        rw [hrr] at hr
        simpa [optLe, hrr] using hr
    · intro hs
      rcases hs with h1 | h1 | h1 <;> cases h1
  · simp [hc] at hres
    rw [h] at hres
    cases hres
    exact hinv

theorem auto_close_preserves_I5 (db : DB) (inc : IncidentRows)
    (h : db.incident = some inc) (hinv : invariant_I5 inc) :
    ∀ s r now inc2, clock_ok inc now →
      (auto_close_incident db s r now).2.incident = some inc2 → invariant_I5 inc2 := by
  intro s r now inc2 hck hres
  simp only [auto_close_incident, h] at hres
  by_cases hst : inc.status = Status.awaitingSummary
  · simp [hst] at hres
    cases hres
    refine ⟨hinv.1, hinv.2.1, ?_, ?_⟩
    · cases hrr : inc.t_resolution_requested with
      | none => simp [optLe, hrr]
      | some r2 =>
        have hr := hck.2.2
        rw [hrr] at hr
        simpa [optLe, hrr] using hr
    · intro hs
      rcases hs with h1 | h1 | h1 <;> cases h1
  · simp [hst] at hres
    rw [h] at hres
    cases hres
    exact hinv

/-- C5: every lifecycle operation keeps the amended invariant I5 (the chain
t_first_claimed ≤ t_last_claimed ≤ t_resolution_requested ≤ t_resolved on
non-null pairs), under the monotone-clock hypothesis `clock_ok`.  The
claim's first link t_department_assigned ≤ t_first_claimed is false on the
code: see the counterexample theorem.  claim_incident preserves the
invariant trivially: its guard-passing path raises IndexError at
database.py:2037 and the transaction rolls back, so its returned store is
always the input store. -/
theorem lifecycle_preserves_invariant_I5 (db : DB) (inc : IncidentRows)
    (h : db.incident = some inc) (hinv : invariant_I5 inc) :
    (∀ u now inc2, clock_ok inc now →
      (claim_incident db u now).2.incident = some inc2 → invariant_I5 inc2) ∧
    (∀ u now inc2, clock_ok inc now →
      (release_claim db u now).2.incident = some inc2 → invariant_I5 inc2) ∧
    (∀ d a now inc2, clock_ok inc now →
      (assign_incident_department db d a now).2.incident = some inc2 →
      invariant_I5 inc2) ∧
    (∀ u now inc2, clock_ok inc now →
      (request_resolution db u now).2.incident = some inc2 → invariant_I5 inc2) ∧
    (∀ u s now inc2, clock_ok inc now →
      (resolve_incident db u s now).2.incident = some inc2 → invariant_I5 inc2) ∧
    (∀ s r now inc2, clock_ok inc now →
      (auto_close_incident db s r now).2.incident = some inc2 → invariant_I5 inc2) :=
  ⟨claim_incident_preserves_I5 db inc h hinv,
   release_claim_preserves_I5 db inc h hinv,
   assign_department_preserves_I5 db inc h hinv,
   request_resolution_preserves_I5 db inc h hinv,
   resolve_incident_preserves_I5 db inc h hinv,
   auto_close_preserves_I5 db inc h hinv⟩

/-- C5 counterexample: transferring the In_Progress incident of `db_ip`
(claimed at 20, department assigned at 10) to department 2 at time 30 sets
t_department_assigned to 30 while t_first_claimed stays 20, so the literal
invariant I5 fails after assign_incident_department. -/
theorem literal_I5_not_preserved :
    literal_I5_check inc_ip = true ∧
    ((assign_incident_department db_ip 2 7 30).2.incident.map literal_I5_check) =
      some false := by
  decide

/-- C5 witness: the preservation theorem applied to the concrete store
`db_ip` and the resolution request of user 7 at time 30. -/
theorem lifecycle_preserves_invariant_I5_witness :
    invariant_I5 inc_ip ∧ invariant_I5 inc_ip_reqres :=
  ⟨by decide,
   (lifecycle_preserves_invariant_I5 db_ip inc_ip rfl (by decide)).2.2.2.1 7 30
     inc_ip_reqres (by decide) (by decide)⟩

/-- C7 (amended): resolve_incident performs no summary validation: for every
incident in Awaiting_Summary whose pending resolver is the calling user,
resolve succeeds for any summary — the empty string included — storing it
verbatim and moving the incident to Resolved. -/
theorem resolve_incident_accepts_any_summary (db : DB) (inc : IncidentRows)
    (user_id : Int) (s : String) (now : Nat)
    (h : db.incident = some inc) (hst : inc.status = .awaitingSummary)
    (hp : inc.pending_resolution_by_user_id = some user_id) :
    (resolve_incident db user_id s now).1 = (true, "Incident resolved successfully") ∧
    ∃ inc2, (resolve_incident db user_id s now).2.incident = some inc2 ∧
      inc2.status = .resolved ∧ inc2.resolution_summary = some s ∧
      inc2.resolved_by_user_id = some user_id ∧ inc2.t_resolved = some now := by
  simp only [resolve_incident, h]
  rw [if_pos ⟨hst, hp⟩]
  exact ⟨rfl, _, rfl, rfl, rfl, rfl, rfl⟩

/-- C7 counterexample: on the concrete Awaiting_Summary store `db_as`,
resolve_incident with the empty summary returns ok and stores the empty
summary on a Resolved incident, where claim C7 requires (false, reason) and
no state change. -/
theorem resolve_incident_empty_summary_accepted :
    (resolve_incident db_as 7 "" 40).1 = (true, "Incident resolved successfully") ∧
    resolved_with_empty_summary (resolve_incident db_as 7 "" 40).2 = true := by
  decide

/-- C7 witness: the amended theorem applied to `db_as`, user 7 and the empty
summary at time 40. -/
theorem resolve_incident_accepts_any_summary_witness :
    (resolve_incident db_as 7 "" 40).1 = (true, "Incident resolved successfully") ∧
    ∃ inc2, (resolve_incident db_as 7 "" 40).2.incident = some inc2 ∧
      inc2.status = .resolved ∧ inc2.resolution_summary = some "" ∧
      inc2.resolved_by_user_id = some 7 ∧ inc2.t_resolved = some 40 :=
  resolve_incident_accepts_any_summary db_as inc_as 7 "" 40 rfl rfl rfl

/-- C10 (amended): when the requested department equals the incident's
current department and the status is Awaiting_Claim or In_Progress (not
Awaiting_Department and not a closing status), assign_incident_department
returns exactly (false, "Incident already assigned to this department.")
and leaves the store unchanged.  For the closing statuses the code rejects
with a different message (see the counterexample), still without a state
change. -/
theorem assign_same_department_rejected (db : DB) (inc : IncidentRows)
    (d a : Int) (now : Nat)
    (h : db.incident = some inc) (hd : inc.department_id = some d)
    (hst : inc.status = .awaitingClaim ∨ inc.status = .inProgress) :
    assign_incident_department db d a now =
      ((false, "Incident already assigned to this department."), db) := by
  have hs1 : ¬ (inc.status = Status.resolved ∨ inc.status = Status.closed ∨
      inc.status = Status.awaitingSummary) := by
    rcases hst with h1 | h1 <;> rw [h1] <;> intro hc <;>
      rcases hc with h2 | h2 | h2 <;> cases h2
  have hs2 : inc.status ≠ Status.awaitingDepartment := by
    rcases hst with h1 | h1 <;> rw [h1] <;> intro h2 <;> cases h2
  simp only [assign_incident_department, h]
  rw [if_neg hs1, if_pos ⟨hd, hs2⟩]

/-- C10 counterexample: on the Resolved store `db_res` (current department 1,
status not Awaiting_Department), requesting department 1 again is rejected
with the closing-out message, not with "Incident already assigned to this
department." as the claim states; the store is unchanged either way. -/
theorem assign_same_department_closing_message :
    inc_res.department_id = some 1 ∧ inc_res.status ≠ .awaitingDepartment ∧
    (assign_incident_department db_res 1 7 60).1 =
      (false, "Department cannot be changed while the incident is closing out.") ∧
    (assign_incident_department db_res 1 7 60).1 ≠
      (false, "Incident already assigned to this department.") ∧
    (assign_incident_department db_res 1 7 60).2 = db_res := by
  decide

/-- C10 witness: the amended theorem applied to `db_ip` (In_Progress,
department 1) requesting department 1 at time 60. -/
theorem assign_same_department_rejected_witness :
    assign_incident_department db_ip 1 7 60 =
      ((false, "Incident already assigned to this department."), db_ip) :=
  assign_same_department_rejected db_ip inc_ip 1 7 60 rfl rfl (Or.inr rfl)

/-! ### Lemmas on participant finalization -/

theorem finalize_participation_marks (ps : List ParticipantRow) (user : Int)
    (dept : Option Int) (stop : Nat) (st : String) (o : Option String) (mr : Bool) :
    ∀ p ∈ finalize_participation ps user dept stop st o mr,
      participantMatches user dept p = true →
      p.status = st ∧ p.is_active = false ∧ p.last_released_at = some stop := by
  intro p hp hm
  unfold finalize_participation at hp
  cases hfq : ps.find? (participantMatches user dept) with
  | none =>
    rw [hfq] at hp
    rw [List.find?_eq_none] at hfq
    exact absurd hm (hfq p hp)
  | some row =>
    rw [hfq] at hp
    simp only [List.mem_map] at hp
    obtain ⟨q, _, hfq2⟩ := hp
    by_cases hqm : participantMatches user dept q = true
    · rw [if_pos hqm] at hfq2
      cases hfq2
      exact ⟨rfl, rfl, rfl⟩
    · rw [if_neg hqm] at hfq2
      cases hfq2
      exact absurd hm hqm

theorem finalize_participation_keeps_marks (ps : List ParticipantRow) (u2 : Int)
    (d2 : Option Int) (stop : Nat) (st : String) (o : Option String) (mr : Bool)
    (u0 : Int) (d0 : Option Int)
    (hall : ∀ p ∈ ps, participantMatches u0 d0 p = true →
      p.status = st ∧ p.is_active = false ∧ p.last_released_at = some stop) :
    ∀ p ∈ finalize_participation ps u2 d2 stop st o mr,
      participantMatches u0 d0 p = true →
      p.status = st ∧ p.is_active = false ∧ p.last_released_at = some stop := by
  intro p hp hm
  unfold finalize_participation at hp
  cases hfq : ps.find? (participantMatches u2 d2) with
  | none =>
    rw [hfq] at hp
    exact hall p hp hm
  | some row =>
    rw [hfq] at hp
    simp only [List.mem_map] at hp
    obtain ⟨q, hq, hfq2⟩ := hp
    by_cases hqm : participantMatches u2 d2 q = true
    · rw [if_pos hqm] at hfq2
      cases hfq2
      exact ⟨rfl, rfl, rfl⟩
    · rw [if_neg hqm] at hfq2
      subst hfq2
      exact hall q hq hm

theorem transfer_fold_keeps_marks (cs : List ClaimRow) (ps : List ParticipantRow)
    (now : Nat) (u0 : Int) (d0 : Option Int)
    (hall : ∀ p ∈ ps, participantMatches u0 d0 p = true →
      p.status = "transferred" ∧ p.is_active = false ∧ p.last_released_at = some now) :
    ∀ p ∈ cs.foldl (fun acc c =>
        finalize_participation acc c.user_id c.department_id now "transferred" none false) ps,
      participantMatches u0 d0 p = true →
      p.status = "transferred" ∧ p.is_active = false ∧ p.last_released_at = some now := by
  induction cs generalizing ps with
  | nil =>
    intro p hp hm
    exact hall p hp hm
  | cons c cs ih =>
    intro p hp hm
    rw [List.foldl_cons] at hp
    exact ih (finalize_participation ps c.user_id c.department_id now "transferred" none false)
      (finalize_participation_keeps_marks ps c.user_id c.department_id now "transferred"
        none false u0 d0 hall) p hp hm

theorem transfer_fold_marks (cs : List ClaimRow) (ps : List ParticipantRow) (now : Nat) :
    ∀ p ∈ cs.foldl (fun acc c =>
        finalize_participation acc c.user_id c.department_id now "transferred" none false) ps,
      (∃ c ∈ cs, participantMatches c.user_id c.department_id p = true) →
      p.status = "transferred" ∧ p.is_active = false ∧ p.last_released_at = some now := by
  induction cs generalizing ps with
  | nil =>
    intro p _ hex
    obtain ⟨c, hc, _⟩ := hex
    cases hc
  | cons c cs ih =>
    intro p hp hex
    obtain ⟨c0, hc0, hm⟩ := hex
    rw [List.foldl_cons] at hp
    rcases List.mem_cons.mp hc0 with hceq | hcm
    · subst hceq
      exact transfer_fold_keeps_marks cs
        (finalize_participation ps c0.user_id c0.department_id now "transferred" none false)
        now c0.user_id c0.department_id
        (finalize_participation_marks ps c0.user_id c0.department_id now "transferred"
          none false)
        p hp hm
    · exact ih (finalize_participation ps c.user_id c.department_id now "transferred"
        none false) p hp ⟨c0, hcm, hm⟩

/-- C4 (amended): for every incident in Awaiting_Department, Awaiting_Claim
or In_Progress and target department of the incident's company, and —
as the code additionally requires (claim C10) — a target department that
differs from the current one unless the status is Awaiting_Department,
assign_incident_department succeeds with all the transfer effects listed in
`assign_success_post`.  Active claims and sessions are assumed not yet
released, as every operation that deactivates them stamps released_at. -/
theorem assign_incident_department_spec (db : DB) (inc : IncidentRows) (d a : Int)
    (now : Nat) (dept : DepartmentRow)
    (h : db.incident = some inc)
    (hst : inc.status = .awaitingDepartment ∨ inc.status = .awaitingClaim ∨
      inc.status = .inProgress)
    (hfd : findDepartment db d = some dept)
    (hcm : companyMismatch inc dept = false)
    (hne : inc.department_id ≠ some d ∨ inc.status = .awaitingDepartment)
    (hclaims : ∀ c ∈ inc.claims, c.is_active = true → c.released_at = none)
    (hsess : ∀ s0 ∈ inc.sessions, s0.status = "active" → s0.released_at = none) :
    assign_success_post db inc d a now := by
  have hs1 : ¬ (inc.status = Status.resolved ∨ inc.status = Status.closed ∨
      inc.status = Status.awaitingSummary) := by
    rcases hst with h1 | h1 | h1 <;> rw [h1] <;> intro hc <;>
      rcases hc with h2 | h2 | h2 <;> cases h2
  have hs2 : ¬ (inc.department_id = some d ∧ inc.status ≠ Status.awaitingDepartment) := by
    intro hand
    rcases hne with h1 | h1
    · exact h1 hand.1
    · exact hand.2 h1
  unfold assign_success_post
  simp only [assign_incident_department, h]
  rw [if_neg hs1, if_neg hs2]
  simp only [hfd]
  rw [if_neg (by simp [hcm])]
  refine ⟨rfl, _, rfl, rfl, rfl, rfl, ?_, ?_, ?_, ?_, ?_, ?_⟩
  · split_ifs with hemp
    · rw [List.isEmpty_iff] at hemp
      simp [count_active_claims, hemp]
    · exact count_active_claims_close _ _
  · intro c hc hact
    split_ifs with hemp
    · exfalso
      have hmem : c ∈ inc.claims.filter (·.is_active) :=
        List.mem_filter.mpr ⟨hc, by simp [hact]⟩
      rw [List.isEmpty_iff] at hemp
      rw [hemp] at hmem
      cases hmem
    · have hmap := List.mem_map_of_mem (fun c =>
        if c.is_active then
          { c with is_active := false, released_at := some (c.released_at.getD now) }
        else c) hc
      simpa [close_active_claims, hact, hclaims c hc hact] using hmap
  · intro p hp hex
    obtain ⟨c, hc, hact, hm⟩ := hex
    exact transfer_fold_marks (inc.claims.filter (·.is_active)) inc.participants now p hp
      ⟨c, List.mem_filter.mpr ⟨hc, by simp [hact]⟩, hm⟩
  · intro s0 hs0 hact
    apply List.mem_append_left
    have hmap := List.mem_map_of_mem (fun s =>
      if s.status == "active" then
        { s with status := "transferred", released_at := some (s.released_at.getD now) }
      else s) hs0
    simpa [end_active_department_session, hact, hsess s0 hs0 hact] using hmap
  · exact ⟨_, List.mem_append_right _ (List.mem_singleton_self _), rfl, rfl, rfl, rfl, rfl⟩
  · refine ⟨_, rfl, rfl, rfl, ?_, ?_, ?_⟩ <;> simp [List.lookup]

/-- C4 counterexample: on `db_ip` (In_Progress, current department 1 of
company 5), department 1 is a department of the incident's company, yet
assign_incident_department performs no transfer: it rejects with the
same-department message and changes nothing — the unstated extra
precondition documented by claim C10. -/
theorem assign_department_rejects_same_department :
    findDepartment db_ip 1 =
      some { department_id := 1, company_id := 5, name := "Maintenance",
             restricted_to_department_members := false } ∧
    inc_ip.company_id = some 5 ∧ inc_ip.status = .inProgress ∧
    (assign_incident_department db_ip 1 7 61).1 =
      (false, "Incident already assigned to this department.") ∧
    (assign_incident_department db_ip 1 7 61).2 = db_ip := by
  decide

/-- C4 witness: the transfer specification applied to `db_ip`, moving the
incident from department 1 to department 2 at time 60. -/
theorem assign_incident_department_spec_witness : assign_success_post db_ip inc_ip 2 7 60 :=
  assign_incident_department_spec db_ip inc_ip 2 7 60
    { department_id := 2, company_id := 5, name := "Dispatch",
      restricted_to_department_members := false }
    rfl (Or.inr (Or.inr rfl)) (by decide) (by decide) (Or.inl (by decide))
    (by decide) (by decide)

/-- C8: participant time accrual is exact clamped integer arithmetic: when
_finalize_participation — the single helper through which release, transfer,
resolve and auto-close all finalize an active rollup — closes the row
(is_active, active_since non-null) at stop_time, total_active_seconds grows
by exactly (stop − since) / 10^6 seconds in truncated Nat arithmetic, which
equals floor (max 0 (stop − active_since)) taken in seconds (timestamps are
in microseconds); the increment is never negative, so the total never
decreases, and as a natural number it is never negative. -/
theorem finalize_participation_accrual (ps : List ParticipantRow) (user : Int)
    (dept : Option Int) (stop : Nat) (st : String) (o : Option String) (mr : Bool)
    (row : ParticipantRow) (since : Nat)
    (hf : ps.find? (participantMatches user dept) = some row)
    (ha : row.is_active = true) (hs : row.active_since = some since) :
    (∀ p ∈ finalize_participation ps user dept stop st o mr,
      participantMatches user dept p = true →
      p.total_active_seconds = row.total_active_seconds + (stop - since) / 1000000 ∧
      row.total_active_seconds ≤ p.total_active_seconds) ∧
    (stop - since) / 1000000 = ⌊max 0 (((stop : ℚ) - since) / 1000000)⌋₊ := by
  constructor
  · intro p hp hm
    unfold finalize_participation at hp
    rw [hf] at hp
    simp only [List.mem_map] at hp
    obtain ⟨q, hq, hfq2⟩ := hp
    by_cases hqm : participantMatches user dept q = true
    · rw [if_pos hqm] at hfq2
      subst hfq2
      constructor
      · simp [accruedTotal, ha, hs]
      · simp [accruedTotal, ha, hs]
    · rw [if_neg hqm] at hfq2
      subst hfq2
      exact absurd hm hqm
  · rcases le_or_lt since stop with hle | hlt
    · have h0 : (0 : ℚ) ≤ ((stop : ℚ) - since) / 1000000 := by
        apply div_nonneg _ (by norm_num)
        rw [sub_nonneg]
        exact_mod_cast hle
      have hcast : (stop : ℚ) - since = ((stop - since : Nat) : ℚ) := by
        rw [Nat.cast_sub hle]
      rw [max_eq_right h0, hcast, Nat.floor_div_ofNat, Nat.floor_natCast]
    · have hz : stop - since = 0 := Nat.sub_eq_zero_of_le hlt.le
      have hneg : ((stop : ℚ) - since) / 1000000 ≤ 0 := by
        apply div_nonpos_of_nonpos_of_nonneg _ (by norm_num)
        rw [sub_nonpos]
        exact_mod_cast hlt.le
      rw [max_eq_left hneg, hz]
      simp

/-- C8 witness: the accrual theorem applied to the concrete rollup `pr_row`
(7 seconds accrued, active since microsecond 1000000) finalized at
microsecond 3500000: exactly 2 more seconds accrue (floor of 2.5). -/
theorem finalize_participation_accrual_witness :
    (pr_done.total_active_seconds =
      pr_row.total_active_seconds + (3500000 - 1000000) / 1000000 ∧
     pr_row.total_active_seconds ≤ pr_done.total_active_seconds) ∧
    (3500000 - 1000000) / 1000000 =
      ⌊max 0 (((3500000 : ℚ) - 1000000) / 1000000)⌋₊ :=
  ⟨(finalize_participation_accrual [pr_row] 7 (some 1) 3500000 "released" none false
      pr_row 1000000 (by decide) (by decide) (by decide)).1 pr_done (by decide) (by decide),
   (finalize_participation_accrual [pr_row] 7 (some 1) 3500000 "released" none false
      pr_row 1000000 (by decide) (by decide) (by decide)).2⟩

/-! ### Lemmas for incident id generation -/

theorem digitVal_digitChar (k : Nat) (hk : k < 10) : digitVal (digitChar k) = k := by
  interval_cases k <;> rfl

theorem isDigit_digitChar (k : Nat) (hk : k < 10) : (digitChar k).isDigit = true := by
  interval_cases k <;> rfl

theorem lastDigitGroupAux_digits (cs : List Char) (hds : ∀ c ∈ cs, c.isDigit = true) :
    ∀ a last, lastDigitGroupAux cs (some a) last = decimalValAux a cs := by
  induction cs with
  | nil => intro a last; rfl
  | cons c cs ih =>
    intro a last
    rw [lastDigitGroupAux, if_pos (hds c (List.mem_cons_self c cs))]
    simp only [Option.getD_some]
    exact ih (fun c2 hc2 => hds c2 (List.mem_cons_of_mem c hc2)) _ _

theorem lastDigitGroupAux_all_digits (cs : List Char) (hne : cs ≠ [])
    (hds : ∀ c ∈ cs, c.isDigit = true) :
    lastDigitGroupAux cs none 0 = decimalValAux 0 cs := by
  cases cs with
  | nil => exact absurd rfl hne
  | cons c cs =>
    rw [lastDigitGroupAux, if_pos (hds c (List.mem_cons_self c cs))]
    simp only [Option.getD_none]
    rw [lastDigitGroupAux_digits cs (fun c2 hc2 => hds c2 (List.mem_cons_of_mem c hc2))]
    simp [decimalValAux]

theorem decimalValAux_append (a : Nat) (xs ys : List Char) :
    decimalValAux a (xs ++ ys) = decimalValAux (decimalValAux a xs) ys := by
  simp [decimalValAux, List.foldl_append]

theorem decimalValAux_replicate_zero (k : Nat) : ∀ a,
    decimalValAux a (List.replicate k '0') = a * 10 ^ k := by
  induction k with
  | zero => intro a; simp [decimalValAux]
  | succ k ih =>
    intro a
    rw [List.replicate_succ]
    simp only [decimalValAux, List.foldl_cons] at ih ⊢
    rw [ih]
    have : digitVal '0' = 0 := rfl
    rw [this]
    ring

theorem toDecAux_digits (n : Nat) : ∀ c ∈ toDecAux n, c.isDigit = true := by
  induction n using Nat.strong_induction_on with
  | _ n ih =>
    cases n with
    | zero =>
      intro c hc
      rw [toDecAux] at hc
      cases hc
    | succ m =>
      intro c hc
      rw [toDecAux] at hc
      rcases List.mem_cons.mp hc with hceq | hcm
      · subst hceq
        exact isDigit_digitChar _ (Nat.mod_lt _ (by norm_num))
      · exact ih ((m + 1) / 10) (Nat.div_lt_self (Nat.succ_pos m) (by norm_num)) c hcm

theorem decimalValAux_toDecAux (n : Nat) : ∀ a,
    decimalValAux a (toDecAux n).reverse = a * 10 ^ (toDecAux n).length + n := by
  induction n using Nat.strong_induction_on with
  | _ n ih =>
    cases n with
    | zero => intro a; simp [toDecAux, decimalValAux]
    | succ m =>
      intro a
      rw [toDecAux, List.reverse_cons, decimalValAux_append,
        ih ((m + 1) / 10) (Nat.div_lt_self (Nat.succ_pos m) (by norm_num)) a]
      simp only [decimalValAux, List.foldl_cons, List.foldl_nil, List.length_cons]
      rw [digitVal_digitChar _ (Nat.mod_lt _ (by norm_num))]
      have hqr : 10 * ((m + 1) / 10) + (m + 1) % 10 = m + 1 := Nat.div_add_mod (m + 1) 10
      rw [pow_succ]
      set L := (toDecAux ((m + 1) / 10)).length with hL
      conv_rhs => rw [← hqr]
      ring

theorem decimalValAux_natToDecimal (n : Nat) :
    decimalValAux 0 (natToDecimal n).data = n := by
  by_cases h0 : n = 0
  · subst h0
    rfl
  · unfold natToDecimal
    rw [if_neg h0]
    have := decimalValAux_toDecAux n 0
    simpa using this

theorem natToDecimal_digits (n : Nat) : ∀ c ∈ (natToDecimal n).data, c.isDigit = true := by
  by_cases h0 : n = 0
  · subst h0
    intro c hc
    cases hc with
    | head => rfl
    | tail _ h => cases h
  · unfold natToDecimal
    rw [if_neg h0]
    intro c hc
    exact toDecAux_digits n c (List.mem_reverse.mp hc)

theorem natToDecimal_ne_nil (n : Nat) : (natToDecimal n).data ≠ [] := by
  by_cases h0 : n = 0
  · subst h0
    simp [natToDecimal]
  · unfold natToDecimal
    rw [if_neg h0]
    intro hc
    cases n with
    | zero => exact h0 rfl
    | succ m =>
      rw [toDecAux] at hc
      simp at hc

theorem extract_suffix_format04d (n : Nat) : extract_suffix (format04d n) = n := by
  unfold extract_suffix format04d
  have hds : ∀ c ∈ List.replicate (4 - (natToDecimal n).length) '0' ++ (natToDecimal n).data,
      c.isDigit = true := by
    intro c hc
    rcases List.mem_append.mp hc with hl | hr
    · rw [List.eq_of_mem_replicate hl]
      rfl
    · exact natToDecimal_digits n c hr
  have hne : List.replicate (4 - (natToDecimal n).length) '0' ++ (natToDecimal n).data ≠ [] := by
    intro hc
    exact natToDecimal_ne_nil n (List.append_eq_nil.mp hc).2
  rw [show (String.mk (List.replicate (4 - (natToDecimal n).length) '0' ++
      (natToDecimal n).data)).data =
      List.replicate (4 - (natToDecimal n).length) '0' ++ (natToDecimal n).data from rfl]
  rw [lastDigitGroupAux_all_digits _ hne hds, decimalValAux_append,
    decimalValAux_replicate_zero]
  simp [decimalValAux_natToDecimal n]

theorem format04d_length (n : Nat) : 4 ≤ (format04d n).length := by
  show 4 ≤ (List.replicate (4 - (natToDecimal n).length) '0' ++ (natToDecimal n).data).length
  rw [List.length_append, List.length_replicate]
  have := natToDecimal_ne_nil n
  have hpos : 0 < (natToDecimal n).data.length := List.length_pos.mpr this
  have : (natToDecimal n).length = (natToDecimal n).data.length := rfl
  omega

theorem le_foldl_max (l : List Nat) : ∀ b, b ≤ l.foldl max b := by
  induction l with
  | nil => intro b; exact Nat.le_refl b
  | cons x xs ih =>
    intro b
    rw [List.foldl_cons]
    exact le_trans (le_max_left b x) (ih (max b x))

theorem mem_le_foldl_max (l : List Nat) : ∀ b, ∀ x ∈ l, x ≤ l.foldl max b := by
  induction l with
  | nil => intro b x hx; cases hx
  | cons y ys ih =>
    intro b x hx
    rcases List.mem_cons.mp hx with hxy | hxm
    · subst hxy
      rw [List.foldl_cons]
      exact le_trans (le_max_right b x) (le_foldl_max ys (max b x))
    · rw [List.foldl_cons]
      exact ih (max b y) x hxm

theorem foldl_max_lt (l : List Nat) : ∀ b m, b < m → (∀ x ∈ l, x < m) →
    l.foldl max b < m := by
  induction l with
  | nil => intro b m hb _; exact hb
  | cons y ys ih =>
    intro b m hb hall
    rw [List.foldl_cons]
    exact ih (max b y) m (max_lt hb (hall y (List.mem_cons_self y ys)))
      (fun x hx => hall x (List.mem_cons_of_mem y hx))

/-- C9: generate_incident_id returns the decimal string of one plus the
maximum numeric suffix over all stored ids (0 for an empty store or ids
without digits), zero-padded to at least 4 digits; its own suffix is that
value, it is strictly greater than every existing suffix, it is the least
positive such value, and the returned id is unused. -/
theorem generate_incident_id_spec (ids : List String) :
    extract_suffix (generate_incident_id ids) = max_suffix ids + 1 ∧
    (∀ id0 ∈ ids, extract_suffix id0 < extract_suffix (generate_incident_id ids)) ∧
    (∀ m, 0 < m → (∀ id0 ∈ ids, extract_suffix id0 < m) →
      extract_suffix (generate_incident_id ids) ≤ m) ∧
    generate_incident_id ids ∉ ids ∧
    4 ≤ (generate_incident_id ids).length := by
  have hsfx : extract_suffix (generate_incident_id ids) = max_suffix ids + 1 :=
    extract_suffix_format04d (max_suffix ids + 1)
  have hgt : ∀ id0 ∈ ids, extract_suffix id0 < extract_suffix (generate_incident_id ids) := by
    intro id0 hid
    rw [hsfx]
    have : extract_suffix id0 ≤ max_suffix ids :=
      mem_le_foldl_max (ids.map extract_suffix) 0 _ (List.mem_map_of_mem extract_suffix hid)
    omega
  refine ⟨hsfx, hgt, ?_, ?_, format04d_length _⟩
  · intro m hm hall
    rw [hsfx]
    have : max_suffix ids < m := by
      apply foldl_max_lt
      · exact hm
      · intro x hx
        obtain ⟨id0, hid, hxe⟩ := List.mem_map.mp hx
        rw [← hxe]
        exact hall id0 hid
    omega
  · intro hmem
    exact absurd (hgt _ hmem) (lt_irrefl _)

/-- C9 witness: the generator specification applied to a store holding a
legacy id TKT-2024-0007 and a short id 0012: the next id has suffix 13, is
greater than the legacy suffix, is least among valid successors, and is
unused. -/
theorem generate_incident_id_spec_witness :
    extract_suffix (generate_incident_id ["TKT-2024-0007", "0012"]) = 13 ∧
    extract_suffix "TKT-2024-0007" <
      extract_suffix (generate_incident_id ["TKT-2024-0007", "0012"]) ∧
    extract_suffix (generate_incident_id ["TKT-2024-0007", "0012"]) ≤ 13 ∧
    generate_incident_id ["TKT-2024-0007", "0012"] ∉ ["TKT-2024-0007", "0012"] :=
  ⟨(generate_incident_id_spec ["TKT-2024-0007", "0012"]).1.trans (by decide),
   (generate_incident_id_spec ["TKT-2024-0007", "0012"]).2.1 "TKT-2024-0007" (by decide),
   (generate_incident_id_spec ["TKT-2024-0007", "0012"]).2.2.1 13 (by decide) (by decide),
   (generate_incident_id_spec ["TKT-2024-0007", "0012"]).2.2.2.1⟩

/-! ### The restricted_to_department_members flag is never consulted -/

theorem find?_dept_flag_overridden (l : List DepartmentRow) (d : Int) (b : Bool) :
    (l.map (flag_overridden b)).find? (fun dp => dp.department_id == d) =
      (l.find? (fun dp => dp.department_id == d)).map (flag_overridden b) := by
  induction l with
  | nil => rfl
  | cons x xs ih =>
    by_cases hx : (x.department_id == d) = true
    · simp [List.find?, flag_overridden, hx]
    · simp [List.find?, flag_overridden, hx] at ih ⊢
      exact ih

theorem findDepartment_set_restricted (db : DB) (b : Bool) (d : Int) :
    findDepartment (set_restricted db b) d =
      (findDepartment db d).map (flag_overridden b) :=
  find?_dept_flag_overridden db.departments d b

theorem get_department_name_set_restricted (db : DB) (b : Bool) (o : Option Int) :
    get_department_name (set_restricted db b) o = get_department_name db o := by
  cases o with
  | none => rfl
  | some i =>
    simp only [get_department_name, findDepartment_set_restricted]
    cases findDepartment db i <;> rfl

theorem assign_incident_department_set_restricted (db : DB) (b : Bool) (d a : Int)
    (now : Nat) :
    assign_incident_department (set_restricted db b) d a now =
      ((assign_incident_department db d a now).1,
       set_restricted (assign_incident_department db d a now).2 b) := by
  unfold assign_incident_department
  have hinc : (set_restricted db b).incident = db.incident := rfl
  cases h : db.incident with
  | none => simp only [hinc, h]
  | some inc =>
    simp only [hinc, h]
    by_cases hs1 : inc.status = Status.resolved ∨ inc.status = Status.closed ∨
        inc.status = Status.awaitingSummary
    · rw [if_pos hs1, if_pos hs1]
    · rw [if_neg hs1, if_neg hs1]
      by_cases hs2 : inc.department_id = some d ∧ inc.status ≠ Status.awaitingDepartment
      · rw [if_pos hs2, if_pos hs2]
      · rw [if_neg hs2, if_neg hs2]
        rw [findDepartment_set_restricted]
        cases hfd : findDepartment db d with
        | none => simp only [Option.map_none']
        | some dept =>
          simp only [Option.map_some']
          have hcmeq : companyMismatch inc (flag_overridden b dept) =
              companyMismatch inc dept := rfl
          by_cases hcm : companyMismatch inc dept = true
          · rw [hcmeq, if_pos hcm, if_pos hcm]
          · rw [hcmeq, if_neg hcm, if_neg hcm]
            simp only [get_department_name_set_restricted]
            rfl

theorem filter_flag_overridden (l : List DepartmentRow) (b : Bool) (c : Int) :
    (l.map (flag_overridden b)).filter (fun dp => dp.company_id == c) =
      (l.filter (fun dp => dp.company_id == c)).map (flag_overridden b) := by
  induction l with
  | nil => rfl
  | cons x xs ih =>
    by_cases hx : (x.company_id == c) = true
    · simp [List.filter, flag_overridden, hx] at ih ⊢
      exact ih
    · simp [List.filter, flag_overridden, hx] at ih ⊢
      exact ih

theorem insertByName_flag_overridden (d : DepartmentRow) (b : Bool) :
    ∀ l, insertByName (flag_overridden b d) (l.map (flag_overridden b)) =
      (insertByName d l).map (flag_overridden b) := by
  intro l
  induction l with
  | nil => rfl
  | cons x xs ih =>
    by_cases hx : x.name < d.name
    · have hx2 : (flag_overridden b x).name < (flag_overridden b d).name := hx
      simp only [List.map_cons, insertByName, if_pos hx, if_pos hx2, List.map_cons, ih]
    · have hx2 : ¬ (flag_overridden b x).name < (flag_overridden b d).name := hx
      simp only [List.map_cons, insertByName, if_neg hx, if_neg hx2, List.map_cons]

theorem foldl_insert_flag_overridden (b : Bool) :
    ∀ (l acc : List DepartmentRow),
      (l.map (flag_overridden b)).foldl (fun a dp => insertByName dp a)
          (acc.map (flag_overridden b)) =
        (l.foldl (fun a dp => insertByName dp a) acc).map (flag_overridden b) := by
  intro l
  induction l with
  | nil => intro acc; rfl
  | cons x xs ih =>
    intro acc
    simp only [List.map_cons, List.foldl_cons]
    rw [insertByName_flag_overridden x b acc]
    exact ih (insertByName x acc)

theorem list_company_departments_set_restricted (db : DB) (b : Bool) (c : Int) :
    list_company_departments (set_restricted db b) c =
      (list_company_departments db c).map (flag_overridden b) := by
  unfold list_company_departments
  have hd : (set_restricted db b).departments = db.departments.map (flag_overridden b) := rfl
  rw [hd, filter_flag_overridden]
  have := foldl_insert_flag_overridden b (db.departments.filter (fun dp => dp.company_id == c)) []
  simpa using this

/-- C6 (amended): the restricted_to_department_members policy is not a gate:
the change-department flow is entirely insensitive to that flag — forcing it
on every department changes neither the outcome of _handle_reassign_department
(beyond the flag itself in the store) nor the branch taken by
_handle_change_department (the flag only decorates menu labels with a lock
marker) — and the only authorization gate is membership of the current
department, whose violation is rejected with no state change. -/
theorem restricted_flag_not_consulted (db : DB) (user_id target company_id : Int)
    (now : Nat) (b : Bool) (incident_id : String) :
    (handle_reassign_department (set_restricted db b) user_id target now =
      ((handle_reassign_department db user_id target now).1,
       set_restricted (handle_reassign_department db user_id target now).2 b)) ∧
    ((handle_change_department (set_restricted db b) user_id company_id
        incident_id).kind =
      (handle_change_department db user_id company_id incident_id).kind) ∧
    (∀ inc cur, db.incident = some inc → inc.department_id = some cur →
      is_user_in_department db cur user_id = false →
      handle_reassign_department db user_id target now =
        (.alert "Only members of the current department can transfer this issue.", db)) := by
  have hinc : (set_restricted db b).incident = db.incident := rfl
  refine ⟨?_, ?_, ?_⟩
  · cases h : db.incident with
    | none =>
      unfold handle_reassign_department
      simp only [hinc, h]
    | some inc =>
      cases hd : inc.department_id with
      | none =>
        unfold handle_reassign_department
        simp only [hinc, h, hd]
      | some cur =>
        unfold handle_reassign_department
        simp only [hinc, h, hd]
        have hmem : is_user_in_department (set_restricted db b) cur user_id =
            is_user_in_department db cur user_id := rfl
        rw [hmem]
        by_cases hm : is_user_in_department db cur user_id = true
        · rw [assign_incident_department_set_restricted]
          cases hres : assign_incident_department db target user_id now with
          | mk r1 r2 =>
            by_cases hok : r1.1 = true
            · simp [hm, hok]
            · simp [hm, hok]
        · simp only [Bool.not_eq_true] at hm
          simp [hm]
  · cases h : db.incident with
    | none =>
      unfold handle_change_department
      simp only [hinc, h]
    | some inc =>
      cases hd : inc.department_id with
      | none =>
        unfold handle_change_department
        simp only [hinc, h, hd]
      | some cur =>
        unfold handle_change_department
        simp only [hinc, h, hd]
        have hmem : is_user_in_department (set_restricted db b) cur user_id =
            is_user_in_department db cur user_id := rfl
        rw [hmem]
        by_cases hm : is_user_in_department db cur user_id = true
        · rw [list_company_departments_set_restricted]
          by_cases hemp : (list_company_departments db company_id).isEmpty = true
          · rw [List.isEmpty_iff] at hemp
            simp [hm, hemp, ChangeOutcome.kind]
          · have hne2 : ¬ list_company_departments db company_id = [] := by
              rwa [List.isEmpty_iff] at hemp
            simp [hm, hne2, ChangeOutcome.kind, List.isEmpty_iff, List.map_eq_nil_iff]
        · simp only [Bool.not_eq_true] at hm
          simp [hm]
  · intro inc cur h hd hmem2
    unfold handle_reassign_department
    simp only [h, hd]
    rw [if_pos (by simp [hmem2])]

/-- C6 counterexample: on `db_locked` — `db_ip` with the current department
carrying restricted_to_department_members — a transfer request by user 7,
who merely satisfies the always-required current-department membership, is
not additionally gated: it succeeds, and it produces the same incident state
as the same request on the unrestricted `db_ip`; no caller is ever rejected
by the policy. -/
theorem restricted_source_not_gated :
    ((db_locked.departments.find? (fun dp => dp.department_id == 1)).map
      (·.restricted_to_department_members)) = some true ∧
    (handle_reassign_department db_locked 7 2 70).1 = .transferDone "Department updated" ∧
    (handle_reassign_department db_locked 7 2 70).2.incident =
      (handle_reassign_department db_ip 7 2 70).2.incident := by
  decide

/-- C6 witness: the amended theorem applied to `db_ip`: user 8 (not in
department 1) is rejected with no state change, and the outcome for user 9
is insensitive to forcing the restricted flag everywhere. -/
theorem restricted_flag_not_consulted_witness :
    (handle_reassign_department db_ip 8 2 70 =
      (.alert "Only members of the current department can transfer this issue.", db_ip)) ∧
    (handle_reassign_department (set_restricted db_ip true) 9 2 70 =
      ((handle_reassign_department db_ip 9 2 70).1,
       set_restricted (handle_reassign_department db_ip 9 2 70).2 true)) :=
  ⟨(restricted_flag_not_consulted db_ip 8 2 5 70 true "0001").2.2 inc_ip 1 rfl rfl
      (by decide),
   (restricted_flag_not_consulted db_ip 9 2 5 70 true "0001").1⟩

/-- C2: the tick does not reach the summary-timeout step on every run.  In
the world `w_bug` the incident 0002 qualifies for the summary timeout, yet
on a tick at local minute 10085 (a Monday 00:05, so the enabled shift of the
member of the unclaimed incident 0001 starts inside the check window) the
shift-start step calls build_department_ping with three arguments — the
builder takes two — and the resulting TypeError is caught by the tick's
top-level handler: the summary-timeout step never runs, auto_close is not
called and the store is unchanged.  On the same world with the shift
disabled (`w_ok`) the tick does reach the step and behaves as the claim
says: the overdue incident is auto-closed with a summary naming the pending
user's handle and the timeout minutes, the pinned message is edited and
unpinned, and a short notice is posted. -/
theorem summary_timeout_step_never_reached :
    ((get_awaiting_summary_incidents w_bug w_bug.sla_summary_timeout_minutes).map
      (·.incident_id)) = ["0002"] ∧
    (check_and_send_reminders w_bug st_init 10085).error_caught =
      some PyError.typeError ∧
    (check_and_send_reminders w_bug st_init 10085).timeout_count = none ∧
    (check_and_send_reminders w_bug st_init 10085).world = w_bug ∧
    (check_and_send_reminders w_ok st_init 10085).timeout_count = some 1 ∧
    ((check_and_send_reminders w_ok st_init 10085).world.incidents.map
      (fun si => si.rows.status)) = [Status.awaitingClaim, Status.closed] ∧
    ((check_and_send_reminders w_ok st_init 10085).world.incidents.map
      (fun si => si.rows.resolution_summary)) =
      [none, some ("Auto-closed after waiting 60 minutes for a resolution summary " ++
        "from @bob. No response received.")] ∧
    ((check_and_send_reminders w_ok st_init 10085).actions.map ChatAction.kind) =
      ["edit", "unpin", "send"] := by
  decide
